import Mathlib

/-!
Verification of the Catalog Reconciliation Engine of `product-data-odoo-crewai`.

The Python tools under `src/product_data_odoo/tools/` are shallowly embedded
below: JSON dicts become association lists (`List (κ × α)`) preserving
insertion order, Python `str` becomes `String`, Python `float` prices become
`ℚ`, parsed decimal strings become exact `(numerator, scale)` pairs, and code
that can raise an uncaught exception is modelled in `Except Unit`.
-/

deriving instance DecidableEq for Except

namespace ProductData

/-! ### String helpers mirroring the Python string operations

Core `String` functions such as `trim`, `toLower` and `split` are
implemented on `Substring` positions, which the kernel cannot evaluate;
the list-based equivalents below compute under `decide`. -/

/-- ASCII lower-casing of one character, as Python `str.lower` does on the
ASCII data handled by the tools. -/
def lowChar (c : Char) : Char :=
  if 'A' ≤ c && c ≤ 'Z' then Char.ofNat (c.toNat + 32) else c

/-- Python `s.lower()`. -/
def pyLower (s : String) : String := String.mk (s.toList.map lowChar)

/-- Python `s.strip()`: drop leading and trailing whitespace. -/
def pyStrip (s : String) : String :=
  String.mk (((s.toList.dropWhile Char.isWhitespace).reverse.dropWhile
    Char.isWhitespace).reverse)

/-- Python `s.startswith(prefix)`. -/
def pyStartsWith (s pre : String) : Bool := pre.toList.isPrefixOf s.toList

/-- Helper for `pySplit`: accumulate the current word (reversed). -/
def splitWordsAux : List Char → List Char → List String
  | [], cur => if cur.isEmpty then [] else [String.mk cur.reverse]
  | c :: t, cur =>
    if c.isWhitespace then
      if cur.isEmpty then splitWordsAux t []
      else String.mk cur.reverse :: splitWordsAux t []
    else splitWordsAux t (c :: cur)

/-- Python `s.split()`: split on whitespace runs, dropping empty pieces. -/
def pySplit (s : String) : List String := splitWordsAux s.toList []

/-- Python `needle in hay` on lists of characters (substring containment). -/
def infChars : List Char → List Char → Bool
  | n, [] => n.isEmpty
  | n, c :: t => n.isPrefixOf (c :: t) || infChars n t

/-- Python `needle in hay` for strings. -/
def strIn (needle hay : String) : Bool := infChars needle.toList hay.toList

/-- Python `s.isdigit()` (ASCII digits). -/
def isDigitStr (s : String) : Bool := !s.isEmpty && s.toList.all Char.isDigit

/-- Python `s.replace(c, '')` for a single character `c`. -/
def removeChar (c : Char) (s : String) : String :=
  String.mk (s.toList.filter (fun d => d ≠ c))

/-- Python `s.replace('mg', '')`: delete the leftmost non-overlapping
occurrences of the two-character substring `mg`. -/
def stripMgChars : List Char → List Char
  | 'm' :: 'g' :: t => stripMgChars t
  | c :: t => c :: stripMgChars t
  | [] => []

/-- Python `s.replace('mg', '')` for strings. -/
def stripMg (s : String) : String := String.mk (stripMgChars s.toList)

/-- The numeric token starting at the head of `l` (head assumed a digit),
matching the regex `\d+(?:\.\d+)?`. -/
def numTokenFrom (l : List Char) : List Char :=
  let ds := l.takeWhile Char.isDigit
  let rest := l.drop ds.length
  match rest with
  | '.' :: r =>
    let fs := r.takeWhile Char.isDigit
    if fs.isEmpty then ds else ds ++ '.' :: fs
  | _ => ds

/-- First match of `re.findall(r'\d+(?:\.\d+)?', s)`, if any. -/
def firstNumTokenChars : List Char → Option (List Char)
  | [] => none
  | c :: t => if c.isDigit then some (numTokenFrom (c :: t)) else firstNumTokenChars t

/-- First numeric token of a string, as used by `re.findall(...)[0]`. -/
def firstNumToken (s : String) : Option String :=
  (firstNumTokenChars s.toList).map String.mk

/-- Value of a digit list read in base 10. -/
def digitsVal (l : List Char) : Nat :=
  l.foldl (fun a c => a * 10 + (c.toNat - 48)) 0

/-- Python `float(s)` on the decimal literals reachable in the tools,
represented exactly as `(numerator, scale)` with value `numerator / 10^scale`;
`none` models a raised `ValueError`. -/
def pyFloat (s : String) : Option (Nat × Nat) :=
  let l := (pyStrip s).toList
  if l.isEmpty then none
  else if l.all Char.isDigit then some (digitsVal l, 0)
  else
    let ip := l.takeWhile (fun c => c ≠ '.')
    let rest := l.drop ip.length
    match rest with
    | '.' :: fp =>
      if ip.all Char.isDigit && fp.all Char.isDigit && (!ip.isEmpty || !fp.isEmpty) then
        some (digitsVal ip * 10 ^ fp.length + digitsVal fp, fp.length)
      else none
    | _ => none

/-- Equality of two parsed decimals (Python `float` equality on the decimal
literals at hand): `a/10^s == b/10^t` iff `a·10^t = b·10^s`. -/
def decimalEq (a b : Nat × Nat) : Bool :=
  a.1 * 10 ^ b.2 == b.1 * 10 ^ a.2

/-! ### Association lists modelling Python dicts (insertion order preserved) -/

/-- Python dict lookup `d.get(k)` on an association list. -/
def alookup {κ α : Type} [BEq κ] (l : List (κ × α)) (k : κ) : Option α :=
  (l.find? (fun p => p.1 == k)).map (fun p => p.2)

/-- Python dict assignment `d[k] = v`: overwrite in place, else append. -/
def dinsert {κ α : Type} [BEq κ] (l : List (κ × α)) (k : κ) (v : α) : List (κ × α) :=
  match l with
  | [] => [(k, v)]
  | (k', v') :: t => if k' == k then (k, v) :: t else (k', v') :: dinsert t k v

/-- Python `k in d` for association lists. -/
def hasKey {κ α : Type} [BEq κ] (l : List (κ × α)) (k : κ) : Bool :=
  (alookup l k).isSome

/-! ### Data model

`RawProduct` models one JSON object from `parsed_results.json` (Pattern /
regex stream) or `llm_parsed_results.json` (Semantic / LLM stream) as read by
`variant_builder._combine_product_data`.  An outer `none` means the key is
absent (or JSON `null` where the code treats both alike); for the six direct
attribute fields the code distinguishes key-absent from `null`, hence
`Option (Option String)`.  Attribute values are modelled as the strings the
code obtains via `str(value)`. -/

structure RawProduct where
  index : Option Int := none
  name : Option String := none
  sku : Option String := none
  price : Option ℚ := none
  product_name : Option String := none
  brand : Option String := none
  flavor : Option (Option String) := none
  nicotine_mg : Option (Option String) := none
  volume_ml : Option (Option String) := none
  color : Option (Option String) := none
  resistance_ohm : Option (Option String) := none
  coil_type : Option (Option String) := none
  attributes : Option (List (String × Option String)) := none
  regex_result : Option (List (String × Option String)) := none
deriving DecidableEq

/-- A combined product as produced by `_combine_product_data`. -/
structure Product where
  index : Int
  name : String
  sku : String
  price : ℚ
  product_name : String
  brand : String
  source : String
  attributes : List (String × String)
deriving DecidableEq

/-- The six direct attribute fields checked in the LLM branch of
`_combine_product_data`, in source order. -/
def directAttrPairs (p : RawProduct) : List (String × Option (Option String)) :=
  [("flavor", p.flavor), ("nicotine_mg", p.nicotine_mg), ("volume_ml", p.volume_ml),
   ("color", p.color), ("resistance_ohm", p.resistance_ohm), ("coil_type", p.coil_type)]

/-- Attribute dict built for an LLM product: direct attributes first, then
nested `attributes` entries (keys `index`, `brand`, `product_name`, `name`,
`sku`, `price` excluded, `None` values dropped). -/
def llmAttributes (p : RawProduct) : List (String × String) :=
  let direct := (directAttrPairs p).foldl
    (fun acc kv =>
      match kv.2 with
      | some (some v) => dinsert acc kv.1 v
      | _ => acc) []
  match p.attributes with
  | some nested => nested.foldl
      (fun acc kv =>
        if ["index", "brand", "product_name", "name", "sku", "price"].contains kv.1 then acc
        else
          match kv.2 with
          | some v => dinsert acc kv.1 v
          | none => acc) direct
  | none => direct

/-- The combined product built from an LLM record (the Semantic result wins
entirely: every field below reads only `lp`). -/
def mkFromLLM (index : Int) (lp : RawProduct) : Product :=
  { index := index
    name := lp.name.getD ""
    sku := lp.sku.getD ""
    price := lp.price.getD 0
    product_name := lp.product_name.getD ""
    brand := lp.brand.getD ""
    source := "llm"
    attributes := llmAttributes lp }

/-- Attribute dict built for a regex product: `flavor`, `nicotine_mg`,
`volume_ml` when the key is present (`null` becomes `""`), then `regex_result`
entries (keys `product_name`, `confidence` excluded, `None` values dropped). -/
def regexAttributes (p : RawProduct) : List (String × String) :=
  let a0 : List (String × String) := []
  let a1 := match p.flavor with
    | some v => dinsert a0 "flavor" (v.getD "")
    | none => a0
  let a2 := match p.nicotine_mg with
    | some v => dinsert a1 "nicotine_mg" (v.getD "")
    | none => a1
  let a3 := match p.volume_ml with
    | some v => dinsert a2 "volume_ml" (v.getD "")
    | none => a2
  match p.regex_result with
  | some rr => rr.foldl
      (fun acc kv =>
        if ["product_name", "confidence"].contains kv.1 then acc
        else
          match kv.2 with
          | some v => dinsert acc kv.1 v
          | none => acc) a3
  | none => a3

/-- The combined product built verbatim from a Pattern (regex) record. -/
def mkFromRegex (index : Int) (p : RawProduct) : Product :=
  { index := index
    name := p.name.getD ""
    sku := p.sku.getD ""
    price := p.price.getD 0
    product_name := p.product_name.getD ""
    brand := p.brand.getD ""
    source := "regex"
    attributes := regexAttributes p }

/-- `llm_by_index`: index → LLM product, later entries overwriting earlier. -/
def llmByIndex (llm : List RawProduct) : List (Int × RawProduct) :=
  llm.foldl
    (fun acc p =>
      match p.index with
      | some i => dinsert acc i p
      | none => acc) []

/-- One iteration of the clear-products loop of `_combine_product_data`. -/
def combineStep (lbi : List (Int × RawProduct)) (i : Nat) (p : RawProduct) : Product :=
  let idx := p.index.getD (Int.ofNat i)
  match alookup lbi idx with
  | some lp => mkFromLLM idx lp
  | none => mkFromRegex idx p

/-- The clear-products loop, carrying the running position `i`. -/
def combineClearList (lbi : List (Int × RawProduct)) : Nat → List RawProduct → List Product
  | _, [] => []
  | i, p :: t => combineStep lbi i p :: combineClearList lbi (i + 1) t

/-- `_combine_product_data`: the clear-products loop, then LLM products whose
index is not yet present are appended. -/
def combineProductData (clear llm : List RawProduct) : List Product :=
  let lbi := llmByIndex llm
  let base := combineClearList lbi 0 clear
  llm.foldl
    (fun acc p =>
      match p.index with
      | some idx =>
        if acc.any (fun q => q.index == idx) then acc else acc ++ [mkFromLLM idx p]
      | none => acc) base

/-! ### Association-list lemmas -/

theorem alookup_cons {κ α : Type} [BEq κ] (a : κ) (b : α) (t : List (κ × α)) (k : κ) :
    alookup ((a, b) :: t) k = if a == k then some b else alookup t k := by
  by_cases h : a == k <;> simp [alookup, List.find?, h]

theorem alookup_dinsert {κ α : Type} [BEq κ] [LawfulBEq κ]
    (l : List (κ × α)) (k k' : κ) (v : α) :
    alookup (dinsert l k v) k' = if k == k' then some v else alookup l k' := by
  induction l with
  | nil =>
    by_cases h : k == k' <;> simp [dinsert, alookup, List.find?, h]
  | cons hd tl ih =>
    obtain ⟨a, b⟩ := hd
    simp only [dinsert]
    by_cases hak : a == k
    · have hak' : a = k := eq_of_beq hak
      subst hak'
      rw [if_pos hak, alookup_cons, alookup_cons]
      by_cases h2 : a == k' <;> simp [h2]
    · rw [if_neg (by simpa using hak), alookup_cons, alookup_cons, ih]
      by_cases h2 : a == k'
      · have h2' : a = k' := eq_of_beq h2
        subst h2'
        have hka : ¬(k == a) = true := by
          intro h
          exact hak (by rw [beq_iff_eq] at h ⊢; exact h.symm)
        simp [h2, hka]
      · simp [h2]

/-! ### Lemmas for `_combine_product_data` (claim C1) -/

theorem combineClearList_length (lbi : List (Int × RawProduct)) (l : List RawProduct) :
    ∀ i, (combineClearList lbi i l).length = l.length := by
  induction l with
  | nil => intro i; rfl
  | cons p t ih => intro i; simp [combineClearList, ih]

theorem combineClearList_get (lbi : List (Int × RawProduct)) (l : List RawProduct) :
    ∀ i j, (combineClearList lbi i l)[j]? = (l[j]?).map (fun p => combineStep lbi (i + j) p) := by
  induction l with
  | nil => intro i j; simp [combineClearList]
  | cons p t ih =>
    intro i j
    cases j with
    | zero => simp [combineClearList]
    | succ j =>
      have harith : i + (j + 1) = (i + 1) + j := by omega
      simp only [combineClearList, List.getElem?_cons_succ, ih (i + 1) j, harith]

/-- Appending LLM-only products never disturbs the prefix built from the
clear-products loop. -/
theorem combine_extra_keeps_front (llm : List RawProduct) :
    ∀ (acc : List Product) (j : Nat), j < acc.length →
      (llm.foldl
        (fun acc p =>
          match p.index with
          | some idx =>
            if acc.any (fun q => q.index == idx) then acc else acc ++ [mkFromLLM idx p]
          | none => acc) acc)[j]? = acc[j]? := by
  induction llm with
  | nil => intro acc j hj; rfl
  | cons p t ih =>
    intro acc j hj
    simp only [List.foldl_cons]
    cases hp : p.index with
    | none => exact ih acc j hj
    | some idx =>
      by_cases hany : acc.any (fun q => q.index == idx)
      · simp only [hany, if_true]
        exact ih acc j hj
      · simp only [hany, if_false, Bool.false_eq_true]
        rw [ih (acc ++ [mkFromLLM idx p]) j (by simp; omega)]
        rw [List.getElem?_append, if_pos hj]

theorem llmByIndex_none_aux (llm : List RawProduct) (k : Int) :
    ∀ acc, (alookup (llm.foldl
        (fun acc p =>
          match p.index with
          | some i => dinsert acc i p
          | none => acc) acc) k = none)
      ↔ (alookup acc k = none ∧ ∀ q ∈ llm, q.index ≠ some k) := by
  induction llm with
  | nil => intro acc; simp
  | cons p t ih =>
    intro acc
    simp only [List.foldl_cons, List.mem_cons]
    cases hp : p.index with
    | none =>
      rw [ih acc]
      constructor
      · rintro ⟨h1, h2⟩
        refine ⟨h1, ?_⟩
        intro q hq
        rcases hq with rfl | hq
        · rw [hp]
          exact fun h => Option.noConfusion h
        · exact h2 q hq
      · rintro ⟨h1, h2⟩
        exact ⟨h1, fun q hq => h2 q (Or.inr hq)⟩
    | some i =>
      rw [ih (dinsert acc i p), alookup_dinsert]
      by_cases hik : (i == k)
      · rw [if_pos hik]
        have hik' : i = k := eq_of_beq hik
        subst hik'
        constructor
        · rintro ⟨h1, _⟩
          exact Option.noConfusion h1
        · rintro ⟨_, h2⟩
          exact absurd hp (h2 p (Or.inl rfl))
      · rw [if_neg (by simpa using hik)]
        constructor
        · rintro ⟨h1, h2⟩
          refine ⟨h1, ?_⟩
          intro q hq
          rcases hq with rfl | hq
          · rw [hp]
            intro hc
            apply hik
            have hik2 : i = k := by injection hc
            simp [hik2]
          · exact h2 q hq
        · rintro ⟨h1, h2⟩
          exact ⟨h1, fun q hq => h2 q (Or.inr hq)⟩

/-- No LLM product carries index `k` iff `llm_by_index` has no entry at `k`. -/
theorem llmByIndex_none_iff (llm : List RawProduct) (k : Int) :
    alookup (llmByIndex llm) k = none ↔ ∀ q ∈ llm, q.index ≠ some k := by
  have h := llmByIndex_none_aux llm k []
  simpa [llmByIndex, alookup, List.find?] using h

/-- C1: for a clear (Pattern) product at position `i` carrying source index
`idx`, when the Semantic stream also has a record at `idx`, the merged
collection holds exactly `mkFromLLM idx lp` — every field built from the
Semantic record alone; when the Semantic stream lacks `idx` (third conjunct
characterizes exactly that), the merged collection holds `mkFromRegex idx p`,
the Pattern record's own fields. -/
theorem merge_semantic_priority (clear llm : List RawProduct) (i : Nat)
    (p : RawProduct) (idx : Int)
    (hi : clear[i]? = some p) (hidx : p.index = some idx) :
    (∀ lp, alookup (llmByIndex llm) idx = some lp →
       (combineProductData clear llm)[i]? = some (mkFromLLM idx lp)) ∧
    (alookup (llmByIndex llm) idx = none →
       (combineProductData clear llm)[i]? = some (mkFromRegex idx p)) ∧
    (alookup (llmByIndex llm) idx = none ↔ ∀ q ∈ llm, q.index ≠ some idx) := by
  have hlen : i < clear.length := by
    by_contra h
    push_neg at h
    rw [List.getElem?_eq_none h] at hi
    exact Option.noConfusion hi
  have hbase : (combineClearList (llmByIndex llm) 0 clear)[i]?
      = some (combineStep (llmByIndex llm) i p) := by
    rw [combineClearList_get, hi]
    simp
  have hbaselen : i < (combineClearList (llmByIndex llm) 0 clear).length := by
    rw [combineClearList_length]; exact hlen
  have hfull : (combineProductData clear llm)[i]?
      = some (combineStep (llmByIndex llm) i p) := by
    unfold combineProductData
    rw [combine_extra_keeps_front llm _ i hbaselen]
    exact hbase
  refine ⟨?_, ?_, llmByIndex_none_iff llm idx⟩
  · intro lp hlp
    rw [hfull]
    simp [combineStep, hidx, hlp]
  · intro hnone
    rw [hfull]
    simp [combineStep, hidx, hnone]

/-! ### Template matching (`_find_matching_template`) -/

/-- One entry of the parsed Odoo template export:
`attribute_values` maps a lower-cased attribute name to a `value → value id`
dict, both in insertion order. -/
structure Template where
  template_id : String
  template_name : String
  attribute_values : List (String × List (String × String))
deriving DecidableEq

/-- The product name used for matching: `product_name` stripped, falling back
to `name` stripped, `none` when both are empty. -/
def effectiveProductName (p : Product) : Option String :=
  let pn := pyStrip p.product_name
  if pn ≠ "" then some pn
  else
    let n := pyStrip p.name
    if n ≠ "" then some n else none

/-- Phase 1 test: exact, case-sensitive equality against the stripped
template name. -/
def exactNameMatch (pn : String) (t : Template) : Bool :=
  pn == pyStrip t.template_name

/-- Phase 2 test: case-insensitive substring containment either direction. -/
def containsMatch (pn : String) (t : Template) : Bool :=
  let pl := pyLower pn
  let tl := pyLower (pyStrip t.template_name)
  strIn pl tl || strIn tl pl

/-- Python `set(s.split())`. -/
def wordSet (s : String) : List String := (pySplit s).dedup

/-- `|words1 ∩ words2|` for word sets given as deduplicated lists. -/
def overlapCount (w1 w2 : List String) : Nat :=
  (w1.filter (fun w => w2.contains w)).length

/-- Phase 3 test: whitespace-split word sets with overlap ratio ≥ 0.7. -/
def overlapMatchWs (pn : String) (t : Template) : Bool :=
  let pw := wordSet (pyLower pn)
  let tw := wordSet (pyLower (pyStrip t.template_name))
  pw.length > 0 && tw.length > 0 &&
    10 * overlapCount pw tw ≥ 7 * min pw.length tw.length

/-- `_find_matching_template`: a full exact pass over all templates, then a
single fuzzy pass where each template is tested for containment or
whitespace-word overlap, first hit winning. -/
def findMatchingTemplate (p : Product) (ts : List Template) : Option Template :=
  match effectiveProductName p with
  | none => none
  | some pn =>
    match ts.find? (fun t => exactNameMatch pn t) with
    | some t => some t
    | none => ts.find? (fun t => containsMatch pn t || overlapMatchWs pn t)

/-- Modelled from the spec (claim C3): split both names on whitespace *and*
hyphen for the word-overlap phase, and run containment as its own phase over
all templates before any word-overlap test. -/
def specWordSet (s : String) : List String :=
  (pySplit (String.mk (s.toList.map (fun c => if c = '-' then ' ' else c)))).dedup

/-- Modelled from the spec (claim C3): the word-overlap test of §4.3. -/
def specOverlapMatch (pn : String) (t : Template) : Bool :=
  let pw := specWordSet (pyLower pn)
  let tw := specWordSet (pyLower (pyStrip t.template_name))
  pw.length > 0 && tw.length > 0 &&
    10 * overlapCount pw tw ≥ 7 * min pw.length tw.length

/-- Modelled from the spec (claim C3): three ordered phases, first hit wins. -/
def specFindMatchingTemplate (pn : String) (ts : List Template) : Option Template :=
  match ts.find? (fun t => exactNameMatch pn t) with
  | some t => some t
  | none =>
    match ts.find? (fun t => containsMatch pn t) with
    | some t => some t
    | none => ts.find? (fun t => specOverlapMatch pn t)

/-! ### Attribute-value combination resolution
(`_find_template_value_combination`, `_find_best_value_match`) -/

/-- `_find_best_value_match`: exact (case-insensitive, stripped) match over
the template's values, then first-numeric-token equality when the product
value is numeric, then containment / 0.8-word-overlap, first hit each pass. -/
def findBestValueMatch (pv : String) (mapping : List (String × String)) : Option String :=
  let pvl := pyStrip (pyLower pv)
  if pvl == "" then none
  else
    match mapping.find? (fun kv => pyStrip (pyLower kv.1) == pvl) with
    | some kv => some kv.1
    | none =>
      let numericRes :=
        if isDigitStr (removeChar '-' (removeChar '.' pvl)) then
          match firstNumToken pvl with
          | some tok =>
            (mapping.find? (fun kv => firstNumToken (pyLower kv.1) == some tok)).map
              (fun kv => kv.1)
          | none => none
        else none
      match numericRes with
      | some k => some k
      | none =>
        (mapping.find? (fun kv =>
          let tl := pyStrip (pyLower kv.1)
          strIn pvl tl || strIn tl pvl ||
            (let pw := wordSet pvl
             let tw := wordSet tl
             pw.length > 0 && tw.length > 0 &&
               10 * overlapCount pw tw ≥ 8 * min pw.length tw.length))).map (fun kv => kv.1)

/-- The per-axis body of `_find_template_value_combination`: find the product
value for a template axis via the hard-coded key variations, then resolve it
to a template value id (exact dict key first, else fuzzy; an empty-string
best-match key is falsy in Python and yields nothing). -/
def resolveAxisValue (attrs : List (String × String))
    (axis : String × List (String × String)) : Option String :=
  let an := pyStrip (pyLower axis.1)
  let pv :=
    if hasKey attrs an then alookup attrs an
    else if an == "flavor" && hasKey attrs "flavor" then alookup attrs "flavor"
    else if strIn "nicotine" an && hasKey attrs "nicotine_mg" then alookup attrs "nicotine_mg"
    else if an == "nicotine level" && hasKey attrs "nicotine_mg" then alookup attrs "nicotine_mg"
    else if strIn "size" an && hasKey attrs "volume_ml" then alookup attrs "volume_ml"
    else if an == "color" && hasKey attrs "color" then alookup attrs "color"
    else if strIn "resistance" an && hasKey attrs "resistance_ohm" then alookup attrs "resistance_ohm"
    else none
  match pv with
  | none => none
  | some v =>
    let vs := pyStrip v
    match alookup axis.2 vs with
    | some vid => some vid
    | none =>
      match findBestValueMatch vs axis.2 with
      | some bk => if bk == "" then none else alookup axis.2 bk
      | none => none

/-- The accumulator step of the combination loop: append the resolved value
id, or skip the axis. -/
def combineAxisStep (attrs : List (String × String)) (acc : List String)
    (axis : String × List (String × String)) : List String :=
  match resolveAxisValue attrs axis with
  | some vid => acc ++ [vid]
  | none => acc

/-- `_find_template_value_combination`: one pass over the template's axes,
appending the resolved value id and silently skipping unresolved axes. -/
def findTemplateValueCombination (p : Product) (t : Template) : List String :=
  t.attribute_values.foldl (combineAxisStep p.attributes) []

/-! ### Variant identity resolution
(`_find_existing_variant_id`, `_find_product_attribute_value`,
`_attribute_values_match`) -/

/-- One loaded existing Odoo variant (`_load_existing_variants` entry). -/
structure VariantInfo where
  vid : String
  template_name : String
  all_attributes : List String := []
  attribute_dict : List (String × String) := []
deriving DecidableEq

/-- The `attribute_mappings` table of `_find_product_attribute_value`. -/
def variantAliasTable : List (String × List String) :=
  [("flavor", ["flavor"]),
   ("nicotine level", ["nicotine_mg", "nicotine", "nicotine_level"]),
   ("color", ["color"]),
   ("resistance", ["resistance_ohm", "resistance", "ohm"]),
   ("size", ["volume_ml", "volume", "size"]),
   ("coil type", ["coil_type", "coil_model", "model"]),
   ("brand", ["brand"])]

/-- `_find_product_attribute_value`: direct key lookup, then the hard-coded
alias table, then fuzzy substring containment between attribute names. -/
def findProductAttributeValue (storedAttr : String)
    (attrs : List (String × String)) : Option String :=
  let sl := pyStrip (pyLower storedAttr)
  match alookup attrs sl with
  | some v => some v
  | none =>
    let aliasHit :=
      match variantAliasTable.find? (fun e => e.1 == sl) with
      | some e => (e.2.find? (fun ia => hasKey attrs ia)).bind (fun ia => alookup attrs ia)
      | none => none
    match aliasHit with
    | some v => some v
    | none =>
      (attrs.find? (fun kv => strIn sl (pyLower kv.1) || strIn (pyLower kv.1) sl)).map
        (fun kv => kv.2)

/-- `_attribute_values_match`; `Except.error ()` models the uncaught
`ValueError` that `float(...)` raises when the digit guard passes but the
mg-stripped string is not a decimal literal. -/
def attributeValuesMatch (expected stored : String) : Except Unit Bool :=
  if expected == "" || stored == "" then .ok false
  else
    let e := pyStrip (pyLower expected)
    let s := pyStrip (pyLower stored)
    if e == s then .ok true
    else if isDigitStr (stripMg (removeChar '.' e)) && isDigitStr (stripMg (removeChar '.' s)) then
      match pyFloat (stripMg e), pyFloat (stripMg s) with
      | some a, some b =>
        if decimalEq a b then .ok true
        else if strIn e s || strIn s e then .ok true
        else .ok false
      | _, _ => .error ()
    else if strIn e s || strIn s e then .ok true
    else .ok false

/-- The per-candidate signature loop of `_find_existing_variant_id`: every
`(storedAttr, storedValue)` pair of the stored variant must find a non-empty
product value that matches. -/
def candidateCheckPairs (attrs : List (String × String)) :
    List (String × String) → Except Unit Bool
  | [] => .ok true
  | (sa, sv) :: rest =>
    match findProductAttributeValue sa attrs with
    | none => .ok false
    | some pv =>
      if pv == "" then .ok false
      else
        match attributeValuesMatch pv sv with
        | .error e => .error e
        | .ok false => .ok false
        | .ok true => candidateCheckPairs attrs rest

/-- Only dict keys with this prefix are treated as variant-id entries. -/
def variantPrefix : String := "__export__.product_product_"

/-- Whether one `existing_variants` entry is accepted for the product. -/
def candidateMatches (tnLower : String) (attrs : List (String × String))
    (kv : String × VariantInfo) : Except Unit Bool :=
  if !(pyStartsWith kv.1 variantPrefix) then .ok false
  else if tnLower != pyLower kv.2.template_name then .ok false
  else if kv.2.attribute_dict.isEmpty then .ok true
  else candidateCheckPairs attrs kv.2.attribute_dict

/-- The candidate loop of `_find_existing_variant_id`: first accepted
candidate's key is returned. -/
def findVariantLoop (tnLower : String) (attrs : List (String × String)) :
    List (String × VariantInfo) → Except Unit (Option String)
  | [] => .ok none
  | kv :: rest =>
    match candidateMatches tnLower attrs kv with
    | .error e => .error e
    | .ok true => .ok (some kv.1)
    | .ok false => findVariantLoop tnLower attrs rest

/-- `_find_existing_variant_id`. -/
def findExistingVariantId (p : Product) (t : Template)
    (vs : List (String × VariantInfo)) : Except Unit (Option String) :=
  findVariantLoop (pyLower t.template_name) p.attributes vs

/-! ### The per-product reconciliation step and statistics
(`variant_builder_tool` main loop) -/

/-- Outcome of one product in the `variant_builder_tool` loop. -/
inductive Outcome where
  | templateMiss
  | attrMiss
  | variantRow (id : String) (name : String) (valueIds : List String)
      (sku : String) (price : ℚ)
deriving DecidableEq

/-- One iteration of the main loop: template match, then existing-variant-id
lookup, then value-combination lookup; either miss halts the product. -/
def classifyProduct (ts : List Template) (vs : List (String × VariantInfo))
    (p : Product) : Except Unit Outcome :=
  match findMatchingTemplate p ts with
  | none => .ok .templateMiss
  | some t =>
    match findExistingVariantId p t vs with
    | .error e => .error e
    | .ok none => .ok .attrMiss
    | .ok (some vid) =>
      let ids := findTemplateValueCombination p t
      if ids.isEmpty then .ok .attrMiss
      else .ok (.variantRow vid t.template_name ids p.sku p.price)

/-- The `generation_stats` accumulator. -/
structure GenStats where
  total_products : Nat
  variants_generated : Nat
  template_matches : Nat
  template_misses : Nat
  attribute_misses : Nat
deriving DecidableEq

/-- The main loop over all combined products, threading the statistics. -/
def runLoop (ts : List Template) (vs : List (String × VariantInfo))
    (st : GenStats) : List Product → Except Unit (GenStats × List Outcome)
  | [] => .ok (st, [])
  | p :: rest =>
    match classifyProduct ts vs p with
    | .error e => .error e
    | .ok o =>
      let st' :=
        match o with
        | .templateMiss => { st with template_misses := st.template_misses + 1 }
        | .attrMiss =>
          { st with template_matches := st.template_matches + 1,
                    attribute_misses := st.attribute_misses + 1 }
        | .variantRow _ _ _ _ _ =>
          { st with template_matches := st.template_matches + 1,
                    variants_generated := st.variants_generated + 1 }
      match runLoop ts vs st' rest with
      | .error e => .error e
      | .ok (stf, os) => .ok (stf, o :: os)

/-- `variant_builder_tool`'s reconciliation pass: statistics start at zero
with `total_products` fixed up front. -/
def runVariantBuilder (ts : List Template) (vs : List (String × VariantInfo))
    (ps : List Product) : Except Unit (GenStats × List Outcome) :=
  runLoop ts vs
    { total_products := ps.length, variants_generated := 0,
      template_matches := 0, template_misses := 0, attribute_misses := 0 } ps

/-! ### C1 witness data -/

/-- A Pattern-stream record at index 0. -/
def c1Clear : RawProduct :=
  { index := some 0, name := some "raw", sku := some "SKU1", price := some 5,
    product_name := some "ACME - Juice Line", flavor := some (some "Mango") }

/-- A Semantic-stream record at the same index 0. -/
def c1LLM : RawProduct :=
  { index := some 0, sku := some "SKU1", price := some 6,
    product_name := some "ACME Juice", brand := some "ACME",
    attributes := some [("flavor", some "Grape")] }

/-- Witness for C1 at a concrete pair of streams sharing index 0. -/
theorem merge_semantic_priority_witness :
    (combineProductData [c1Clear] [c1LLM])[0]? = some (mkFromLLM 0 c1LLM) :=
  (merge_semantic_priority [c1Clear] [c1LLM] 0 c1Clear 0 (by decide) (by decide)).1
    c1LLM (by decide)

/-! ### C3: template matching -/

/-- C3 (amended): template matching first runs a full exact pass; then one
fuzzy pass tests each template for containment *or* whitespace-word overlap
(0.7), first hit winning; the result is `None` exactly when every template
fails all three tests.  Word sets split on whitespace only. -/
theorem template_match_characterization (p : Product) (ts : List Template)
    (pn : String) (hpn : effectiveProductName p = some pn) :
    (findMatchingTemplate p ts = none ↔
      ∀ t ∈ ts, exactNameMatch pn t = false ∧ containsMatch pn t = false ∧
        overlapMatchWs pn t = false) ∧
    (∀ t, findMatchingTemplate p ts = some t →
      exactNameMatch pn t = true ∨ containsMatch pn t = true ∨
        overlapMatchWs pn t = true) ∧
    (findMatchingTemplate p ts =
      match ts.find? (fun t => exactNameMatch pn t) with
      | some t => some t
      | none => ts.find? (fun t => containsMatch pn t || overlapMatchWs pn t)) := by
  have hdef : findMatchingTemplate p ts =
      match ts.find? (fun t => exactNameMatch pn t) with
      | some t => some t
      | none => ts.find? (fun t => containsMatch pn t || overlapMatchWs pn t) := by
    unfold findMatchingTemplate
    rw [hpn]
  refine ⟨?_, ?_, hdef⟩
  · rw [hdef]
    constructor
    · intro h
      cases hfind : ts.find? (fun t => exactNameMatch pn t) with
      | some t => rw [hfind] at h; exact absurd h (by simp)
      | none =>
        rw [hfind] at h
        intro t ht
        have h1 := List.find?_eq_none.mp hfind t ht
        have h2 := List.find?_eq_none.mp h t ht
        simp only [Bool.not_eq_true, Bool.or_eq_false_iff] at h1 h2
        exact ⟨h1, h2.1, h2.2⟩
    · intro h
      have hfe : ts.find? (fun t => exactNameMatch pn t) = none :=
        List.find?_eq_none.mpr (fun t ht => by simp [(h t ht).1])
      have hff : ts.find? (fun t => containsMatch pn t || overlapMatchWs pn t) = none :=
        List.find?_eq_none.mpr (fun t ht => by simp [(h t ht).2.1, (h t ht).2.2])
      rw [hfe, hff]
  · intro t hsome
    rw [hdef] at hsome
    cases hfind : ts.find? (fun t => exactNameMatch pn t) with
    | some t' =>
      rw [hfind] at hsome
      have ht' : t' = t := by injection hsome
      subst ht'
      exact Or.inl (List.find?_some hfind)
    | none =>
      rw [hfind] at hsome
      have := List.find?_some hsome
      rcases Bool.or_eq_true _ _ |>.mp this with h | h
      · exact Or.inr (Or.inl h)
      · exact Or.inr (Or.inr h)

/-- C3 witness data: an exact-name product. -/
def c3wProduct : Product :=
  { index := 0, name := "", sku := "", price := 0, product_name := "Simple Widget",
    brand := "", source := "llm", attributes := [] }

/-- C3 witness data: the template of the same name. -/
def c3wTemplate : Template := ⟨"t1", "Simple Widget", []⟩

/-- Witness for the amended C3 at a concrete product/template pair. -/
theorem template_match_characterization_witness :
    findMatchingTemplate c3wProduct [c3wTemplate] = some c3wTemplate := by
  have h := template_match_characterization c3wProduct [c3wTemplate]
    "Simple Widget" (by decide)
  rw [h.2.2]
  decide

/-- C3 counterexample data: hyphenated names with disjoint whitespace words. -/
def c3Product : Product :=
  { index := 0, name := "", sku := "", price := 0, product_name := "alpha-beta",
    brand := "", source := "llm", attributes := [] }

/-- C3 counterexample data: the same words hyphenated in the other order. -/
def c3Template : Template := ⟨"t1", "beta-alpha", []⟩

/-- C3 counterexample: splitting on whitespace *and* hyphen (the claim's
phase 3) matches `alpha-beta` against template `beta-alpha` (overlap 1 ≥
0.7), but the code, which splits on whitespace only, returns `None`. -/
theorem template_match_hyphen_counterexample :
    findMatchingTemplate c3Product [c3Template] = none ∧
    specFindMatchingTemplate "alpha-beta" [c3Template] = some c3Template ∧
    effectiveProductName c3Product = some "alpha-beta" := by decide

/-! ### C2 and C7: variant identity resolution -/

/-- A fully passed signature check certifies every pair of the stored
signature: a non-empty product value was found and matched. -/
theorem candidateCheckPairs_ok_true (attrs : List (String × String)) :
    ∀ l, candidateCheckPairs attrs l = .ok true →
      ∀ pair ∈ l, ∃ pv,
        findProductAttributeValue pair.1 attrs = some pv ∧ pv ≠ "" ∧
        attributeValuesMatch pv pair.2 = .ok true := by
  intro l
  induction l with
  | nil => intro _ pair hpair; exact absurd hpair (List.not_mem_nil pair)
  | cons hd rest ih =>
    obtain ⟨sa, sv⟩ := hd
    intro h pair hpair
    unfold candidateCheckPairs at h
    cases hfind : findProductAttributeValue sa attrs with
    | none => rw [hfind] at h; exact absurd h (by simp)
    | some pv =>
      rw [hfind] at h
      have h' : (if pv == "" then (.ok false : Except Unit Bool)
          else
            match attributeValuesMatch pv sv with
            | .error e => .error e
            | .ok false => .ok false
            | .ok true => candidateCheckPairs attrs rest) = .ok true := h
      clear h
      rename' h' => h
      by_cases hemp : pv == ""
      · rw [if_pos hemp] at h; exact absurd h (by simp)
      · rw [if_neg hemp] at h
        cases hm : attributeValuesMatch pv sv with
        | error e => rw [hm] at h; exact absurd h (by simp)
        | ok b =>
          rw [hm] at h
          cases b with
          | false => exact absurd h (by simp)
          | true =>
            rcases List.mem_cons.mp hpair with rfl | hmem
            · exact ⟨pv, hfind, by simpa using hemp, hm⟩
            · exact ih h pair hmem

/-- Unpacking an accepted candidate: prefix key, matching template name and
an empty or fully matched signature. -/
theorem candidateMatches_ok_true (tn : String) (attrs : List (String × String))
    (k : String) (info : VariantInfo)
    (h : candidateMatches tn attrs (k, info) = .ok true) :
    pyStartsWith k variantPrefix = true ∧ tn = pyLower info.template_name ∧
    (info.attribute_dict = [] ∨
      candidateCheckPairs attrs info.attribute_dict = .ok true) := by
  unfold candidateMatches at h
  by_cases h1 : pyStartsWith k variantPrefix
  · rw [h1] at h
    simp only [Bool.not_true, Bool.false_eq_true, if_false] at h
    by_cases h2 : tn == pyLower info.template_name
    · have h2' : (tn != pyLower info.template_name) = false := by
        simp only [bne, h2, Bool.not_true]
      rw [h2'] at h
      simp only [Bool.false_eq_true, if_false] at h
      refine ⟨h1, eq_of_beq h2, ?_⟩
      by_cases h3 : info.attribute_dict.isEmpty
      · exact Or.inl (by simpa [List.isEmpty_iff] using h3)
      · rw [if_neg (by simpa using h3)] at h
        exact Or.inr h
    · have h2' : (tn != pyLower info.template_name) = true := by
        simp only [bne]
        simpa using h2
      rw [h2'] at h
      simp at h
  · rw [eq_false_of_ne_true h1] at h
    simp at h

/-- The candidate loop returns the first accepted candidate, rejecting every
earlier one. -/
theorem findVariantLoop_ok_some (tn : String) (attrs : List (String × String)) :
    ∀ l (vid : String), findVariantLoop tn attrs l = .ok (some vid) →
      ∃ pre info post, l = pre ++ (vid, info) :: post ∧
        candidateMatches tn attrs (vid, info) = .ok true ∧
        ∀ kv ∈ pre, candidateMatches tn attrs kv = .ok false := by
  intro l
  induction l with
  | nil => intro vid h; exact absurd h (by simp [findVariantLoop])
  | cons kv rest ih =>
    obtain ⟨k, info⟩ := kv
    intro vid h
    unfold findVariantLoop at h
    cases hc : candidateMatches tn attrs (k, info) with
    | error e => rw [hc] at h; exact absurd h (by simp)
    | ok b =>
      rw [hc] at h
      cases b with
      | true =>
        simp only at h
        have hk : k = vid := by
          have := Except.ok.inj h
          exact Option.some.inj this
        subst hk
        exact ⟨[], info, rest, rfl, hc, by simp⟩
      | false =>
        obtain ⟨pre, info', post, hl, hm, hpre⟩ := ih vid h
        refine ⟨(k, info) :: pre, info', post, by simp [hl], hm, ?_⟩
        intro kv' hkv'
        rcases List.mem_cons.mp hkv' with rfl | hkv'
        · exact hc
        · exact hpre kv' hkv'

/-- A loop ending in `none` rejected every candidate. -/
theorem findVariantLoop_ok_none (tn : String) (attrs : List (String × String)) :
    ∀ l, findVariantLoop tn attrs l = .ok none →
      ∀ kv ∈ l, candidateMatches tn attrs kv = .ok false := by
  intro l
  induction l with
  | nil => intro _ kv hkv; exact absurd hkv (List.not_mem_nil kv)
  | cons kv0 rest ih =>
    intro h kv hkv
    unfold findVariantLoop at h
    cases hc : candidateMatches tn attrs kv0 with
    | error e => rw [hc] at h; exact absurd h (by simp)
    | ok b =>
      rw [hc] at h
      cases b with
      | true => simp only at h; exact absurd (Except.ok.inj h) (by simp)
      | false =>
        rcases List.mem_cons.mp hkv with rfl | hkv'
        · exact hc
        · exact ih h kv hkv'

/-- C2 (amended): when the resolver returns an id, that id is the key of the
first candidate (key prefixed `__export__.product_product_`, equal
lower-cased template name) whose *entire* stored signature matched: for every
signature pair the product value found by `_find_product_attribute_value`
(direct key, alias table, or substring-fuzzy attribute-name fallback) is
non-empty and passes `_attribute_values_match` (exact case-insensitive
equality, or equality of the decimal values after deleting every `mg`
occurrence under its digit guard, or substring containment); all earlier
candidates were rejected. -/
theorem variant_id_requires_full_signature (p : Product) (t : Template)
    (vs : List (String × VariantInfo)) (vid : String)
    (h : findExistingVariantId p t vs = .ok (some vid)) :
    ∃ pre info post,
      vs = pre ++ (vid, info) :: post ∧
      pyStartsWith vid variantPrefix = true ∧
      pyLower t.template_name = pyLower info.template_name ∧
      (info.attribute_dict = [] ∨
        ∀ pair ∈ info.attribute_dict, ∃ pv,
          findProductAttributeValue pair.1 p.attributes = some pv ∧ pv ≠ "" ∧
          attributeValuesMatch pv pair.2 = .ok true) ∧
      (∀ kv ∈ pre,
        candidateMatches (pyLower t.template_name) p.attributes kv = .ok false) := by
  obtain ⟨pre, info, post, hl, hm, hpre⟩ :=
    findVariantLoop_ok_some (pyLower t.template_name) p.attributes vs vid h
  obtain ⟨h1, h2, h3⟩ :=
    candidateMatches_ok_true (pyLower t.template_name) p.attributes vid info hm
  refine ⟨pre, info, post, hl, h1, h2, ?_, hpre⟩
  rcases h3 with h3 | h3
  · exact Or.inl h3
  · exact Or.inr (candidateCheckPairs_ok_true p.attributes info.attribute_dict h3)

/-- C2 data: a product whose only attribute key/value pair is reachable just
through the fuzzy fallbacks. -/
def c2Product : Product :=
  { index := 0, name := "", sku := "", price := 0, product_name := "X",
    brand := "", source := "llm", attributes := [("supercolor", "3mg5")] }

/-- C2 data: its matched template. -/
def c2Template : Template := ⟨"tid", "T", []⟩

/-- C2 data: an existing variant whose signature is `color: 35`. -/
def c2Variant : VariantInfo :=
  ⟨"__export__.product_product_9", "T", [], [("color", "35")]⟩

/-- Modelled from the spec (claim C2): product value lookup "via the alias
table" only — no fuzzy attribute-name containment fallback. -/
def specFindProductAttributeValue (storedAttr : String)
    (attrs : List (String × String)) : Option String :=
  let sl := pyStrip (pyLower storedAttr)
  match alookup attrs sl with
  | some v => some v
  | none =>
    match variantAliasTable.find? (fun e => e.1 == sl) with
    | some e => (e.2.find? (fun ia => hasKey attrs ia)).bind (fun ia => alookup attrs ia)
    | none => none

/-- Modelled from the spec (claim C2): strip one trailing `mg` suffix. -/
def stripTrailingMg (s : String) : String :=
  if s.toList.reverse.take 2 = ['g', 'm'] then String.mk s.toList.dropLast.dropLast
  else s

/-- Modelled from the spec (claim C2): exact case-insensitive equality, OR
numeric equality after normalizing a trailing `mg` suffix, OR substring
containment either direction. -/
def specAttributeValuesMatch (a b : String) : Bool :=
  let e := pyStrip (pyLower a)
  let s := pyStrip (pyLower b)
  e == s ||
    (match pyFloat (stripTrailingMg e), pyFloat (stripTrailingMg s) with
     | some x, some y => decimalEq x y
     | _, _ => false) ||
    strIn e s || strIn s e

/-- C2 counterexample: the resolver accepts variant `9` for this product,
although the claim's alias-table lookup finds no product value for `color`
(only the fuzzy name fallback reaches `supercolor`), and although
`"3mg5"`/`"35"` fail all three of the claim's value tests (the code instead
deletes *every* `mg` occurrence, making both sides 35). -/
theorem variant_id_spec_counterexample :
    findExistingVariantId c2Product c2Template
        [("__export__.product_product_9", c2Variant)]
      = .ok (some "__export__.product_product_9") ∧
    specFindProductAttributeValue "color" c2Product.attributes = none ∧
    specAttributeValuesMatch "3mg5" "35" = false := by decide

/-- Witness for the amended C2 at the concrete counterexample scenario. -/
theorem variant_id_requires_full_signature_witness :
    ∃ pre info post,
      ([("__export__.product_product_9", c2Variant)]
        : List (String × VariantInfo)) = pre
          ++ ("__export__.product_product_9", info) :: post ∧
      pyStartsWith "__export__.product_product_9" variantPrefix = true ∧
      pyLower c2Template.template_name = pyLower info.template_name ∧
      (info.attribute_dict = [] ∨
        ∀ pair ∈ info.attribute_dict, ∃ pv,
          findProductAttributeValue pair.1 c2Product.attributes = some pv ∧ pv ≠ "" ∧
          attributeValuesMatch pv pair.2 = .ok true) ∧
      (∀ kv ∈ pre,
        candidateMatches (pyLower c2Template.template_name) c2Product.attributes kv
          = .ok false) :=
  variant_id_requires_full_signature c2Product c2Template
    [("__export__.product_product_9", c2Variant)] "__export__.product_product_9"
    (by decide)

/-- C7 (amended): when an existing variant with an *empty* stored signature,
an export-prefixed key and a matching (case-insensitive) template name is
present, the resolver never reports "no existing variant": it returns the id
of the first accepted candidate (or propagates an earlier numeric-comparison
exception), regardless of the product's attributes. -/
theorem empty_signature_matches (p : Product) (t : Template)
    (vs : List (String × VariantInfo)) (k : String) (info : VariantInfo)
    (hmem : (k, info) ∈ vs) (hpre : pyStartsWith k variantPrefix = true)
    (hname : pyLower t.template_name = pyLower info.template_name)
    (hempty : info.attribute_dict = []) :
    findExistingVariantId p t vs ≠ .ok none := by
  intro h
  have hall := findVariantLoop_ok_none (pyLower t.template_name) p.attributes vs h
  have hthis := hall (k, info) hmem
  have : candidateMatches (pyLower t.template_name) p.attributes (k, info) = .ok true := by
    unfold candidateMatches
    rw [hpre]
    simp only [Bool.not_true, Bool.false_eq_true, if_false]
    have hn : ((pyLower t.template_name) != pyLower info.template_name) = false := by
      simp [bne, hname]
    rw [hn]
    simp only [Bool.false_eq_true, if_false]
    rw [if_pos (by simp [hempty])]
  rw [this] at hthis
  exact absurd (Except.ok.inj hthis) (by simp)

/-- C7 data: a product of template `Simple Widget` with some attributes. -/
def c7Product : Product :=
  { index := 0, name := "", sku := "", price := 0, product_name := "Simple Widget",
    brand := "", source := "llm", attributes := [("flavor", "Mango")] }

/-- C7 data: the matched template. -/
def c7Template : Template := ⟨"t1", "Simple Widget", []⟩

/-- C7 data: first empty-signature variant. -/
def c7v1 : VariantInfo := ⟨"__export__.product_product_1", "Simple Widget", [], []⟩

/-- C7 data: second empty-signature variant of the same template. -/
def c7v2 : VariantInfo := ⟨"__export__.product_product_2", "Simple Widget", [], []⟩

/-- C7 data: both variants, in export order. -/
def c7Variants : List (String × VariantInfo) :=
  [("__export__.product_product_1", c7v1), ("__export__.product_product_2", c7v2)]

/-- C7 counterexample: variant 2 satisfies the claim's hypothesis (empty
signature, same template name), yet the resolver returns variant 1's id, not
"that variant's" id — only the first matching candidate wins. -/
theorem empty_signature_counterexample :
    findExistingVariantId c7Product c7Template c7Variants
      = .ok (some "__export__.product_product_1") ∧
    ("__export__.product_product_2", c7v2) ∈ c7Variants ∧
    c7v2.attribute_dict = [] ∧
    pyLower c7Template.template_name = pyLower c7v2.template_name ∧
    "__export__.product_product_1" ≠ "__export__.product_product_2" := by decide

/-- Witness for the amended C7 with variant 2 alone. -/
theorem empty_signature_matches_witness :
    findExistingVariantId c7Product c7Template
      [("__export__.product_product_2", c7v2)] ≠ .ok none :=
  empty_signature_matches c7Product c7Template
    [("__export__.product_product_2", c7v2)] "__export__.product_product_2" c7v2
    (by decide) (by decide) (by decide) (by decide)

/-! ### C6: axis skipping and attribute misses -/

/-- The append-style fold of the combination loop is a `filterMap`. -/
theorem foldl_combineAxisStep (attrs : List (String × String)) :
    ∀ (l : List (String × List (String × String))) (acc : List String),
      l.foldl (combineAxisStep attrs) acc
        = acc ++ l.filterMap (fun axis => resolveAxisValue attrs axis) := by
  intro l
  induction l with
  | nil => intro acc; simp
  | cons x t ih =>
    intro acc
    rw [List.foldl_cons, List.filterMap_cons]
    cases hf : resolveAxisValue attrs x with
    | none =>
      rw [show combineAxisStep attrs acc x = acc from by unfold combineAxisStep; rw [hf]]
      rw [ih]
    | some y =>
      rw [show combineAxisStep attrs acc x = acc ++ [y] from by
        unfold combineAxisStep; rw [hf]]
      rw [ih]
      simp

/-- `_find_template_value_combination` collects exactly the resolvable axes,
in template order. -/
theorem findTemplateValueCombination_eq_filterMap (p : Product) (t : Template) :
    findTemplateValueCombination p t
      = t.attribute_values.filterMap (fun axis => resolveAxisValue p.attributes axis) := by
  unfold findTemplateValueCombination
  rw [foldl_combineAxisStep p.attributes t.attribute_values []]
  rw [List.nil_append]

/-- A product with no attributes resolves no axis. -/
theorem resolveAxisValue_nil (axis : String × List (String × String)) :
    resolveAxisValue [] axis = none := by
  simp [resolveAxisValue, hasKey, alookup, List.find?]

/-- C6: an unresolvable template axis is skipped without affecting the other
axes; a product with an empty attribute map resolves nothing; a matched
product whose combination is empty is recorded as an attribute miss (never a
variant); every emitted variant row carries a non-empty combination; and the
combination is empty exactly when no axis at all resolved — so it is accepted
whenever at least one axis resolved. -/
theorem axis_skip_attribute_miss :
    (∀ (p : Product) (tid tname : String)
        (axes1 axes2 : List (String × List (String × String)))
        (axis : String × List (String × String)),
        resolveAxisValue p.attributes axis = none →
        findTemplateValueCombination p ⟨tid, tname, axes1 ++ axis :: axes2⟩
          = findTemplateValueCombination p ⟨tid, tname, axes1 ++ axes2⟩) ∧
    (∀ (p : Product) (t : Template), p.attributes = [] →
        findTemplateValueCombination p t = []) ∧
    (∀ (ts : List Template) (vs : List (String × VariantInfo)) (p : Product)
        (t : Template),
        findMatchingTemplate p ts = some t →
        findTemplateValueCombination p t = [] →
        ∀ o, classifyProduct ts vs p = .ok o → o = .attrMiss) ∧
    (∀ (ts : List Template) (vs : List (String × VariantInfo)) (p : Product)
        (vid name sku : String) (valueIds : List String) (price : ℚ),
        classifyProduct ts vs p = .ok (.variantRow vid name valueIds sku price) →
        valueIds ≠ []) ∧
    (∀ (p : Product) (t : Template),
        findTemplateValueCombination p t = [] ↔
        ∀ axis ∈ t.attribute_values, resolveAxisValue p.attributes axis = none) := by
  refine ⟨?_, ?_, ?_, ?_, ?_⟩
  · intro p tid tname axes1 axes2 axis hnone
    rw [findTemplateValueCombination_eq_filterMap, findTemplateValueCombination_eq_filterMap]
    simp only [List.filterMap_append, List.filterMap_cons, hnone]
  · intro p t hattrs
    rw [findTemplateValueCombination_eq_filterMap]
    have : ∀ axis, resolveAxisValue p.attributes axis = none := by
      intro axis; rw [hattrs]; exact resolveAxisValue_nil axis
    simp [this]
  · intro ts vs p t hmatch hcomb o h
    unfold classifyProduct at h
    rw [hmatch] at h
    have h' : (match findExistingVariantId p t vs with
        | .error e => (.error e : Except Unit Outcome)
        | .ok none => .ok .attrMiss
        | .ok (some vid) =>
          if (findTemplateValueCombination p t).isEmpty then .ok .attrMiss
          else .ok (.variantRow vid t.template_name
            (findTemplateValueCombination p t) p.sku p.price)) = .ok o := h
    clear h
    cases hv : findExistingVariantId p t vs with
    | error e => rw [hv] at h'; exact absurd h' (by simp)
    | ok oid =>
      rw [hv] at h'
      cases oid with
      | none => exact (Except.ok.inj h').symm
      | some vid =>
        rw [hcomb] at h'
        exact (Except.ok.inj h').symm
  · intro ts vs p vid name sku valueIds price h
    unfold classifyProduct at h
    cases hmatch : findMatchingTemplate p ts with
    | none => rw [hmatch] at h; exact absurd (Except.ok.inj h) (by simp)
    | some t =>
      rw [hmatch] at h
      have h' : (match findExistingVariantId p t vs with
          | .error e => (.error e : Except Unit Outcome)
          | .ok none => .ok .attrMiss
          | .ok (some vid) =>
            if (findTemplateValueCombination p t).isEmpty then .ok .attrMiss
            else .ok (.variantRow vid t.template_name
              (findTemplateValueCombination p t) p.sku p.price))
          = .ok (.variantRow vid name valueIds sku price) := h
      clear h
      cases hv : findExistingVariantId p t vs with
      | error e => rw [hv] at h'; exact absurd h' (by simp)
      | ok oid =>
        rw [hv] at h'
        cases oid with
        | none => exact absurd (Except.ok.inj h') (by simp)
        | some vid' =>
          have h2 : (if (findTemplateValueCombination p t).isEmpty then
                (.ok .attrMiss : Except Unit Outcome)
              else .ok (.variantRow vid' t.template_name
                (findTemplateValueCombination p t) p.sku p.price))
              = .ok (.variantRow vid name valueIds sku price) := h'
          clear h'
          by_cases hemp : (findTemplateValueCombination p t).isEmpty
          · rw [if_pos hemp] at h2
            exact absurd (Except.ok.inj h2) (by simp)
          · rw [if_neg hemp] at h2
            have hinj := Except.ok.inj h2
            have hids : valueIds = findTemplateValueCombination p t := by
              cases hinj; rfl
            rw [hids]
            intro hc
            exact hemp (by simp [hc])
  · intro p t
    rw [findTemplateValueCombination_eq_filterMap]
    exact List.filterMap_eq_nil_iff

/-- C6 data: Scenario B product with an empty attribute map. -/
def c6Product : Product :=
  { index := 0, name := "", sku := "S", price := 0, product_name := "ACME Kit",
    brand := "", source := "regex", attributes := [] }

/-- C6 data: a matched template with one axis. -/
def c6Template : Template := ⟨"t1", "ACME Kit", [("flavor", [("Mango", "v1")])]⟩

/-- C6 data: an empty-signature variant so the id-lookup step succeeds. -/
def c6Variant : VariantInfo := ⟨"__export__.product_product_3", "ACME Kit", [], []⟩

/-- Witness for C6: scenario B ends as an attribute miss. -/
theorem axis_skip_attribute_miss_witness :
    findMatchingTemplate c6Product [c6Template] = some c6Template ∧
    findTemplateValueCombination c6Product c6Template = [] ∧
    Outcome.attrMiss = Outcome.attrMiss :=
  ⟨by decide, by decide,
    axis_skip_attribute_miss.2.2.1 [c6Template]
      [("__export__.product_product_3", c6Variant)] c6Product c6Template
      (by decide) (by decide) .attrMiss (by decide)⟩

/-! ### C9: numeric value matching -/

/-- `find?` over a split list whose prefix all fails. -/
theorem find?_first_hit {α : Type} (p : α → Bool) (l1 l2 : List α) (x : α)
    (hx : p x = true) (h1 : ∀ y ∈ l1, p y = false) :
    (l1 ++ x :: l2).find? p = some x := by
  induction l1 with
  | nil => rw [List.nil_append, List.find?_cons_of_pos _ hx]
  | cons a t ih =>
    rw [List.cons_append, List.find?_cons_of_neg _ (by simp [h1 a (by simp)])]
    exact ih (fun y hy => h1 y (by simp [hy]))

/-- C9 (amended): when the product value is wholly numeric (digits once `.`
and `-` are removed), no vocabulary value matches it exactly
(case-insensitively), and `(k, id)` is the first vocabulary entry whose first
extracted numeric token equals the product's first token, the resolver
accepts `k`. -/
theorem numeric_token_match (pv : String) (mapping l1 l2 : List (String × String))
    (k vid tok : String)
    (hpvl : pyStrip (pyLower pv) ≠ "")
    (hguard : isDigitStr (removeChar '-' (removeChar '.' (pyStrip (pyLower pv)))) = true)
    (hnoexact : ∀ kv ∈ mapping, pyStrip (pyLower kv.1) ≠ pyStrip (pyLower pv))
    (hsplit : mapping = l1 ++ (k, vid) :: l2)
    (htok : firstNumToken (pyStrip (pyLower pv)) = some tok)
    (hk : firstNumToken (pyLower k) = some tok)
    (hprev : ∀ kv ∈ l1, firstNumToken (pyLower kv.1) ≠ some tok) :
    findBestValueMatch pv mapping = some k := by
  have hne : (pyStrip (pyLower pv) == "") = false := by simpa using hpvl
  have hexact : mapping.find? (fun kv => pyStrip (pyLower kv.1) == pyStrip (pyLower pv))
      = none :=
    List.find?_eq_none.mpr (fun kv hkv => by simpa using hnoexact kv hkv)
  have hfind : mapping.find?
      (fun kv => firstNumToken (pyLower kv.1) == some tok) = some (k, vid) := by
    rw [hsplit]
    exact find?_first_hit _ l1 l2 (k, vid) (by simp [hk])
      (fun y hy => by simpa using hprev y hy)
  unfold findBestValueMatch
  simp only [hne, Bool.false_eq_true, if_false, hexact, hguard, if_true, htok, hfind]
  rfl

/-- Witness for the amended C9 and for the claim's own instance: product
value `"3"` is accepted for vocabulary value `"3mg"`. -/
theorem numeric_token_match_witness :
    findBestValueMatch "3" [("3mg", "val")] = some "3mg" :=
  numeric_token_match "3" [("3mg", "val")] [] [] "3mg" "val" "3"
    (by decide) (by decide) (by decide) (by decide) (by decide) (by decide)
    (by decide)

/-- C9 counterexample: `"a3b"` and `"x3y"` reduce by digit extraction to the
same numeric token `3`, yet the resolver accepts nothing — the numeric pass
only runs when the *product* value is wholly numeric. -/
theorem numeric_token_counterexample :
    findBestValueMatch "a3b" [("x3y", "v1")] = none ∧
    firstNumToken "a3b" = some "3" ∧
    firstNumToken "x3y" = some "3" := by decide

/-! ### C10: statistics invariant of the reconciliation pass -/

/-- Dissect one successful `runLoop` step: the recursive call succeeded with
the same final statistics and the tail of the outcome list. -/
theorem runLoop_step (ts : List Template) (vs : List (String × VariantInfo))
    (st' : GenStats) (rest : List Product) (o : Outcome) (st : GenStats)
    (os : List Outcome)
    (h : (match runLoop ts vs st' rest with
          | .error e => (.error e : Except Unit (GenStats × List Outcome))
          | .ok (stf, os') => .ok (stf, o :: os')) = .ok (st, os)) :
    ∃ os', os = o :: os' ∧ runLoop ts vs st' rest = .ok (st, os') := by
  cases hr : runLoop ts vs st' rest with
  | error e => rw [hr] at h; exact absurd h (by simp)
  | ok pr =>
    obtain ⟨stf, os'⟩ := pr
    rw [hr] at h
    have h2 : Except.ok (ε := Unit) (stf, o :: os') = .ok (st, os) := h
    have hp : (stf, o :: os') = (st, os) := Except.ok.inj h2
    injection hp with hst hos
    subst hst
    exact ⟨os', hos.symm, rfl⟩

/-- Per-run bookkeeping of `runLoop`: each product adds one to
`template_matches + template_misses`, and matches split into variants and
attribute misses. -/
theorem runLoop_stats (ts : List Template) (vs : List (String × VariantInfo)) :
    ∀ (ps : List Product) (st0 st : GenStats) (os : List Outcome),
      runLoop ts vs st0 ps = .ok (st, os) →
      st.total_products = st0.total_products ∧
      st.template_matches + st.template_misses
        = st0.template_matches + st0.template_misses + ps.length ∧
      st.variants_generated + st.attribute_misses + st0.template_matches
        = st.template_matches + st0.variants_generated + st0.attribute_misses := by
  intro ps
  induction ps with
  | nil =>
    intro st0 st os h
    unfold runLoop at h
    have hp := Except.ok.inj h
    injection hp with hst hos
    subst hst
    exact ⟨rfl, by simp, by omega⟩
  | cons p rest ih =>
    intro st0 st os h
    unfold runLoop at h
    cases hc : classifyProduct ts vs p with
    | error e => rw [hc] at h; exact absurd h (by simp)
    | ok o =>
      rw [hc] at h
      cases o with
      | templateMiss =>
        have h' : (match runLoop ts vs
              { st0 with template_misses := st0.template_misses + 1 } rest with
            | .error e => (.error e : Except Unit (GenStats × List Outcome))
            | .ok (stf, os') => .ok (stf, Outcome.templateMiss :: os'))
            = .ok (st, os) := h
        obtain ⟨os', rfl, hr⟩ := runLoop_step ts vs _ rest _ st os h'
        obtain ⟨h1, h2, h3⟩ := ih _ _ _ hr
        refine ⟨h1, ?_, ?_⟩
        · have h2' : st.template_matches + st.template_misses
              = st0.template_matches + (st0.template_misses + 1) + rest.length := h2
          simp only [List.length_cons]
          omega
        · have h3' : st.variants_generated + st.attribute_misses + st0.template_matches
              = st.template_matches + st0.variants_generated + st0.attribute_misses := h3
          omega
      | attrMiss =>
        have h' : (match runLoop ts vs
              { st0 with template_matches := st0.template_matches + 1,
                         attribute_misses := st0.attribute_misses + 1 } rest with
            | .error e => (.error e : Except Unit (GenStats × List Outcome))
            | .ok (stf, os') => .ok (stf, Outcome.attrMiss :: os'))
            = .ok (st, os) := h
        obtain ⟨os', rfl, hr⟩ := runLoop_step ts vs _ rest _ st os h'
        obtain ⟨h1, h2, h3⟩ := ih _ _ _ hr
        refine ⟨h1, ?_, ?_⟩
        · have h2' : st.template_matches + st.template_misses
              = (st0.template_matches + 1) + st0.template_misses + rest.length := h2
          simp only [List.length_cons]
          omega
        · have h3' : st.variants_generated + st.attribute_misses
              + (st0.template_matches + 1)
              = st.template_matches + st0.variants_generated
                + (st0.attribute_misses + 1) := h3
          omega
      | variantRow vid name valueIds sku price =>
        have h' : (match runLoop ts vs
              { st0 with template_matches := st0.template_matches + 1,
                         variants_generated := st0.variants_generated + 1 } rest with
            | .error e => (.error e : Except Unit (GenStats × List Outcome))
            | .ok (stf, os') =>
              .ok (stf, Outcome.variantRow vid name valueIds sku price :: os'))
            = .ok (st, os) := h
        obtain ⟨os', rfl, hr⟩ := runLoop_step ts vs _ rest _ st os h'
        obtain ⟨h1, h2, h3⟩ := ih _ _ _ hr
        refine ⟨h1, ?_, ?_⟩
        · have h2' : st.template_matches + st.template_misses
              = (st0.template_matches + 1) + st0.template_misses + rest.length := h2
          simp only [List.length_cons]
          omega
        · have h3' : st.variants_generated + st.attribute_misses
              + (st0.template_matches + 1)
              = st.template_matches + (st0.variants_generated + 1)
                + st0.attribute_misses := h3
          omega

/-- C10: a completed reconciliation pass satisfies
`total_products = template_matches + template_misses` and
`template_matches = variants_generated + attribute_misses`. -/
theorem stats_invariant (ts : List Template) (vs : List (String × VariantInfo))
    (ps : List Product) (st : GenStats) (os : List Outcome)
    (h : runVariantBuilder ts vs ps = .ok (st, os)) :
    st.total_products = st.template_matches + st.template_misses ∧
    st.template_matches = st.variants_generated + st.attribute_misses := by
  obtain ⟨h1, h2, h3⟩ := runLoop_stats ts vs ps
    { total_products := ps.length, variants_generated := 0,
      template_matches := 0, template_misses := 0, attribute_misses := 0 } st os h
  simp only at h1 h2 h3
  omega

/-- C10 data: a single product matching no template. -/
def c10Product : Product :=
  { index := 0, name := "", sku := "S", price := 0, product_name := "Lone",
    brand := "", source := "regex", attributes := [] }

/-- C10 data: the resulting statistics. -/
def c10Stats : GenStats :=
  { total_products := 1, variants_generated := 0, template_matches := 0,
    template_misses := 1, attribute_misses := 0 }

/-- Witness for C10 on a concrete one-product run. -/
theorem stats_invariant_witness :
    runVariantBuilder [] [] [c10Product] = .ok (c10Stats, [.templateMiss]) ∧
    (c10Stats.total_products = c10Stats.template_matches + c10Stats.template_misses ∧
     c10Stats.template_matches
       = c10Stats.variants_generated + c10Stats.attribute_misses) :=
  ⟨by decide, stats_invariant [] [] [c10Product] c10Stats [.templateMiss] (by decide)⟩

/-! ### Snapshot loaders
(`_load_existing_attributes`, `_load_existing_templates`,
`_load_existing_variants`)

Each loader receives the result of the file read (`pd.read_csv` and the
existence check) as an `Except`: `.error` is an unreadable or unparsable
file.  Cells are `Option String` (`none` = missing/NaN), except in the
variant export where the code immediately converts cells with
`str(...) if pd.notna(...) else ""`. -/

/-- Python update-in-place of the entry at key `k`. -/
def dupdate {κ α : Type} [BEq κ] (l : List (κ × α)) (k : κ) (f : α → α) : List (κ × α) :=
  match l with
  | [] => []
  | (k', v) :: t => if k' == k then (k', f v) :: t else (k', v) :: dupdate t k f

/-- `row[c] if pd.notna(row[c]) and row[c].strip() else None`. -/
def cellStr (c : Option String) : Option String :=
  match c with
  | some s => if pyStrip s == "" then none else some s
  | none => none

/-- One row of the vocabulary export (`id, name, value_ids/id, value_ids/name`). -/
structure AttrRow where
  id : Option String := none
  name : Option String := none
  value_id : Option String := none
  value_name : Option String := none
deriving DecidableEq

/-- One loaded vocabulary attribute. -/
structure AttrInfo where
  id : String
  name : String
  values : List (String × String)
deriving DecidableEq

/-- One iteration of the `_load_existing_attributes` loop, on the state
`(attribute dict, current attribute name)`. -/
def loadAttrStep (st : List (String × AttrInfo) × Option String) (row : AttrRow) :
    List (String × AttrInfo) × Option String :=
  let attr_id := cellStr row.id
  let attr_name := cellStr row.name
  let st1 :=
    match attr_id, attr_name with
    | some aid, some aname =>
      (if hasKey st.1 aname then st.1 else st.1 ++ [(aname, ⟨aid, aname, []⟩)], some aname)
    | _, _ => st
  match st1.2, row.value_id, row.value_name with
  | some cur, some vid, some vname =>
    if vid == "" || vname == "" then st1
    else
      (dupdate st1.1 cur (fun info => { info with values := dinsert info.values vname vid }),
        st1.2)
  | _, _, _ => st1

/-- `_load_existing_attributes`: a read failure is caught with a warning and
the loader returns the empty vocabulary. -/
def loadExistingAttributes (input : Except String (List AttrRow)) :
    List (String × AttrInfo) :=
  match input with
  | .error _ => []
  | .ok rows => (rows.foldl loadAttrStep ([], none)).1

/-- One row of the template export. -/
structure TemplateRow where
  id : Option String := none
  name : Option String := none
  categ_id : Option String := none
  attr_id : Option String := none
deriving DecidableEq

/-- One loaded existing template. -/
structure ExistingTemplate where
  id : String
  name : String
  category_id : Option String
  attributes : List String
deriving DecidableEq

/-- One iteration of the `_load_existing_templates` loop (continuation rows
with an empty `id` are ignored by this loader). -/
def loadTemplStep (dict : List (String × ExistingTemplate)) (row : TemplateRow) :
    List (String × ExistingTemplate) :=
  match cellStr row.id, cellStr row.name with
  | some tid, some tname =>
    let dict1 :=
      if hasKey dict tname then dict
      else dict ++ [(tname, ⟨tid, tname, row.categ_id, []⟩)]
    match row.attr_id with
    | some aid =>
      if aid == "" then dict1
      else
        dupdate dict1 tname (fun t =>
          { t with attributes :=
              if t.attributes.contains aid then t.attributes else t.attributes ++ [aid] })
    | none => dict1
  | _, _ => dict

/-- `_load_existing_templates`: a read failure is caught with a warning and
the loader returns no templates. -/
def loadExistingTemplates (input : Except String (List TemplateRow)) :
    List (String × ExistingTemplate) :=
  match input with
  | .error _ => []
  | .ok rows => rows.foldl loadTemplStep []

/-- One row of the variant export, cells already defaulted to `""`. -/
structure VariantRow where
  id : String := ""
  name : String := ""
  values : String := ""
deriving DecidableEq

/-- Split at the first `:` (Python `s.split(':', 1)`), assuming one exists. -/
def splitColon1 (s : String) : String × String :=
  (String.mk (s.toList.takeWhile (fun c => c ≠ ':')),
   String.mk ((s.toList.dropWhile (fun c => c ≠ ':')).drop 1))

/-- Fold one `"AttrName: Value"` line into the variant's attribute dict,
applying the attribute-name normalization of `_load_existing_variants`. -/
def parseVariantAttr (d : List (String × String)) (attr : String) : List (String × String) :=
  if strIn ":" attr then
    let parts := splitColon1 attr
    let name := pyStrip parts.1
    let value := pyStrip parts.2
    let nl := pyLower name
    let key :=
      if nl == "flavor" then "flavor"
      else if nl == "nicotine level" then "nicotine level"
      else if nl == "color" then "color"
      else if nl == "resistance" then "resistance"
      else if strIn "coil" nl && (strIn "type" nl || strIn "model" nl) then "coil type"
      else nl
    dinsert d key value
  else d

/-- Merge-sort-free lexicographic `≤` on strings (code-point order, as Python
`sorted` uses). -/
def chLe : List Char → List Char → Bool
  | [], _ => true
  | _ :: _, [] => false
  | x :: xs, y :: ys => if x < y then true else if y < x then false else chLe xs ys

/-- Insert into a sorted list of strings. -/
def insortStr (x : String) : List String → List String
  | [] => [x]
  | y :: ys => if chLe x.toList y.toList then x :: y :: ys else y :: insortStr x ys

/-- Python `sorted` on strings (code-point lexicographic). -/
def sortStrs (l : List String) : List String := l.foldr insortStr []

/-- Python `"|".join(...)`. -/
def joinBar : List String → String
  | [] => ""
  | [x] => x
  | x :: y :: t => x ++ "|" ++ joinBar (y :: t)

/-- Build the `existing_variants` entry for one collected variant. -/
def mkVariantEntry (vid tname : String) (attrsList : List String) : VariantInfo :=
  { vid := vid, template_name := tname,
    all_attributes := attrsList,
    attribute_dict := attrsList.foldl parseVariantAttr [] }

/-- Commit the currently open variant: insert it under its id, and also under
the `template|sorted-attributes` key when that key is still free. -/
def flushVariant (dict : List (String × VariantInfo))
    (cur : Option (String × String × List String)) : List (String × VariantInfo) :=
  match cur with
  | none => dict
  | some (vid, tname, attrs) =>
    let info := mkVariantEntry vid tname attrs
    let d1 := dinsert dict vid info
    let key := tname ++ "|" ++ joinBar (sortStrs attrs)
    if hasKey d1 key then d1 else d1 ++ [(key, info)]

/-- One iteration of the `_load_existing_variants` row scan: a non-empty `ID`
starts a new variant (committing the previous one); an empty-`ID` row is a
continuation only while a variant is open and it has an empty `Name` and a
non-empty `Variant Values`; any other empty-`ID` row closes the open variant
and is skipped. -/
def loadVarStep (st : List (String × VariantInfo) × Option (String × String × List String))
    (row : VariantRow) :
    List (String × VariantInfo) × Option (String × String × List String) :=
  if pyStrip row.id != "" then
    (flushVariant st.1 st.2,
     some (row.id, row.name, if pyStrip row.values == "" then [] else [pyStrip row.values]))
  else
    match st.2 with
    | some cur =>
      if pyStrip row.name == "" && pyStrip row.values != "" then
        (st.1, some (cur.1, cur.2.1, cur.2.2 ++ [pyStrip row.values]))
      else (flushVariant st.1 (some cur), none)
    | none => st

/-- `_load_existing_variants`: a missing file or read failure yields the
empty dict (with a warning); otherwise the rows are grouped into variants. -/
def loadExistingVariants (input : Except String (List VariantRow)) :
    List (String × VariantInfo) :=
  match input with
  | .error _ => []
  | .ok rows =>
    let st := rows.foldl loadVarStep ([], none)
    flushVariant st.1 st.2

/-! ### C5: snapshot loading failure modes -/

/-- A fully blank vocabulary row changes nothing. -/
theorem loadAttrStep_blank (st : List (String × AttrInfo) × Option String) :
    loadAttrStep st {} = st := by
  obtain ⟨d, cur⟩ := st
  cases cur <;> rfl

/-- C5 (amended): a malformed export row (missing its required fields) is
skipped and loading continues with the remaining rows; but a failure to read
or parse a snapshot file is *caught*: each loader logs a warning and returns
an empty snapshot, and the reconciliation run proceeds against that empty
snapshot instead of aborting. -/
theorem snapshot_error_handling :
    (∀ e, loadExistingAttributes (.error e) = []) ∧
    (∀ e, loadExistingTemplates (.error e) = []) ∧
    (∀ e, loadExistingVariants (.error e) = []) ∧
    (∀ r1 r2, loadExistingAttributes (.ok (r1 ++ ({} : AttrRow) :: r2))
      = loadExistingAttributes (.ok (r1 ++ r2))) ∧
    (∀ r1 r2, loadExistingTemplates (.ok (r1 ++ ({} : TemplateRow) :: r2))
      = loadExistingTemplates (.ok (r1 ++ r2))) ∧
    (∀ (d : List (String × VariantInfo)), loadVarStep (d, none) {} = (d, none)) ∧
    (∀ e (ts : List Template) (ps : List Product),
      runVariantBuilder ts (loadExistingVariants (.error e)) ps
        = runVariantBuilder ts [] ps) := by
  refine ⟨fun e => rfl, fun e => rfl, fun e => rfl, ?_, ?_, fun d => rfl,
    fun e ts ps => rfl⟩
  · intro r1 r2
    show (List.foldl loadAttrStep ([], none) (r1 ++ ({} : AttrRow) :: r2)).1
      = (List.foldl loadAttrStep ([], none) (r1 ++ r2)).1
    rw [List.foldl_append, List.foldl_append, List.foldl_cons, loadAttrStep_blank]
  · intro r1 r2
    show List.foldl loadTemplStep [] (r1 ++ ({} : TemplateRow) :: r2)
      = List.foldl loadTemplStep [] (r1 ++ r2)
    rw [List.foldl_append, List.foldl_append, List.foldl_cons]
    rfl

/-- C5 data: a product for the post-failure run. -/
def c5Product : Product :=
  { index := 0, name := "", sku := "W1", price := 0, product_name := "Widget",
    brand := "", source := "regex", attributes := [] }

/-- C5 data: the statistics of that run. -/
def c5Stats : GenStats :=
  { total_products := 1, variants_generated := 0, template_matches := 0,
    template_misses := 1, attribute_misses := 0 }

/-- C5 counterexample: an unreadable snapshot is *not* fatal — every loader
returns an empty snapshot and the reconciliation pass still completes
normally, i.e. it does proceed against an empty snapshot. -/
theorem snapshot_failure_counterexample :
    loadExistingVariants (.error "unreadable") = [] ∧
    loadExistingAttributes (.error "unreadable") = [] ∧
    loadExistingTemplates (.error "unreadable") = [] ∧
    runVariantBuilder [] (loadExistingVariants (.error "unreadable")) [c5Product]
      = .ok (c5Stats, [.templateMiss]) := by decide

/-! ### Attribute builder value emission (`attribute_builder_tool`,
`_find_existing_value`, `_find_existing_attribute`) -/

/-- `_find_existing_value`: case-insensitive, whitespace-trimmed lookup in an
attribute's existing value vocabulary. -/
def findExistingValue (valueName : String) (existingValues : List (String × String)) :
    Option String :=
  (existingValues.find? (fun kv =>
    pyStrip (pyLower kv.1) == pyStrip (pyLower valueName))).map (fun kv => kv.2)

/-- The `attr_variations` table of `_find_existing_attribute`. -/
def attrVariationsTable : List (String × List String) :=
  [("nicotine level", ["nicotine", "nicotine_mg", "nicotine strength",
      "nicotine_mg_range", "nicotine_mg_min", "nicotine_mg_max"]),
   ("flavor", ["flavor"]),
   ("brand", ["brand"]),
   ("color", ["color"]),
   ("resistance", ["resistance", "resistance_ohm", "ohm"]),
   ("size", ["volume", "volume_ml", "capacity"]),
   ("coil type", ["coil_type", "coil model", "coil_model"])]

/-- `_find_existing_attribute`: case-insensitive name match, then the alias
group table in both directions. -/
def findExistingAttribute (attrName : String)
    (existing : List (String × AttrInfo)) : Option AttrInfo :=
  let anl := pyLower attrName
  match existing.find? (fun kv => pyLower kv.1 == anl) with
  | some kv => some kv.2
  | none =>
    (existing.find? (fun kv =>
      let exl := pyLower kv.1
      attrVariationsTable.any (fun sv =>
        (exl == sv.1 && sv.2.contains anl) || (anl == sv.1 && sv.2.contains exl)))).map
      (fun kv => kv.2)

/-- The per-value body of the existing-attribute loop of
`attribute_builder_tool`: empty values are dropped; a value whose truthy
existing id is found is suppressed; otherwise it becomes a new value. -/
def newValueStep (existingValues : List (String × String)) (acc : List String)
    (v : String) : List String :=
  if pyStrip v == "" then acc
  else
    match findExistingValue (pyStrip v) existingValues with
    | some eid => if eid == "" then acc ++ [pyStrip v] else acc
    | none => acc ++ [pyStrip v]

/-- `new_values_for_attr` for an existing attribute: unique sorted candidate
values, minus those already present (case-insensitively). -/
def newValuesForAttr (values : List String) (existingValues : List (String × String)) :
    List String :=
  (sortStrs values).foldl (newValueStep existingValues) []

/-- One row of `existing_attributes_values.csv`. -/
structure AttrCsvRow where
  id : String
  name : String
  value : String
deriving DecidableEq

/-- The rows emitted for one existing attribute: the first new value carries
the attribute id and name, the rest only their value. -/
def existingAttrRows (attrId attrName : String) : List String → List AttrCsvRow
  | [] => []
  | v :: rest => ⟨attrId, attrName, v⟩ :: rest.map (fun v' => ⟨"", "", v'⟩)

/-! ### C8: duplicate value suppression -/

/-- The value column of an attribute's row block is its new-value list. -/
theorem existingAttrRows_values (attrId attrName : String) (l : List String) :
    (existingAttrRows attrId attrName l).map (fun r => r.value) = l := by
  cases l with
  | nil => rfl
  | cons v rest =>
    simp only [existingAttrRows, List.map_cons, List.map_map]
    have hcomp : ((fun (r : AttrCsvRow) => r.value) ∘ fun v' =>
        (⟨"", "", v'⟩ : AttrCsvRow)) = fun v' => v' := rfl
    rw [hcomp]
    simp

/-- The new-value fold is a `filterMap` over the sorted candidates. -/
theorem foldl_newValueStep (evs : List (String × String)) :
    ∀ (l : List String) (acc : List String),
      l.foldl (newValueStep evs) acc
        = acc ++ l.filterMap (fun v =>
            if pyStrip v == "" then none
            else
              match findExistingValue (pyStrip v) evs with
              | some eid => if eid == "" then some (pyStrip v) else none
              | none => some (pyStrip v)) := by
  intro l
  induction l with
  | nil => intro acc; simp
  | cons v t ih =>
    intro acc
    by_cases h0 : pyStrip v == ""
    · simp only [List.foldl_cons, List.filterMap_cons, newValueStep, h0, if_true, ih]
    · have h0' : (pyStrip v == "") = false := by simpa using h0
      cases hf : findExistingValue (pyStrip v) evs with
      | some eid =>
        by_cases he : eid == ""
        · simp only [List.foldl_cons, List.filterMap_cons, newValueStep, h0',
            Bool.false_eq_true, if_false, hf, he, if_true, ih]
          simp
        · have he' : (eid == "") = false := by simpa using he
          simp only [List.foldl_cons, List.filterMap_cons, newValueStep, h0',
            Bool.false_eq_true, if_false, hf, he', ih]
      | none =>
        simp only [List.foldl_cons, List.filterMap_cons, newValueStep, h0',
          Bool.false_eq_true, if_false, hf, ih]
        simp

/-- Membership in a `dinsert` result. -/
theorem mem_dinsert {κ α : Type} [BEq κ] (l : List (κ × α)) (k : κ) (v : α)
    (x : κ × α) (hx : x ∈ dinsert l k v) : x = (k, v) ∨ x ∈ l := by
  induction l with
  | nil => simpa [dinsert] using hx
  | cons hd tl ih =>
    obtain ⟨k', v'⟩ := hd
    unfold dinsert at hx
    by_cases hk : k' == k
    · rw [if_pos hk] at hx
      rcases List.mem_cons.mp hx with rfl | hx
      · exact Or.inl rfl
      · exact Or.inr (List.mem_cons.mpr (Or.inr hx))
    · rw [if_neg hk] at hx
      rcases List.mem_cons.mp hx with rfl | hx
      · exact Or.inr (List.mem_cons.mpr (Or.inl rfl))
      · rcases ih hx with h | h
        · exact Or.inl h
        · exact Or.inr (List.mem_cons.mpr (Or.inr h))

/-- Membership in a `dupdate` result. -/
theorem mem_dupdate {κ α : Type} [BEq κ] (l : List (κ × α)) (k : κ) (f : α → α)
    (x : κ × α) (hx : x ∈ dupdate l k f) :
    x ∈ l ∨ ∃ y, (x.1, y) ∈ l ∧ x.2 = f y := by
  induction l with
  | nil => simp [dupdate] at hx
  | cons hd tl ih =>
    obtain ⟨k', v'⟩ := hd
    unfold dupdate at hx
    by_cases hk : k' == k
    · rw [if_pos hk] at hx
      rcases List.mem_cons.mp hx with rfl | hx
      · exact Or.inr ⟨v', List.mem_cons.mpr (Or.inl rfl), rfl⟩
      · exact Or.inl (List.mem_cons.mpr (Or.inr hx))
    · rw [if_neg hk] at hx
      rcases List.mem_cons.mp hx with rfl | hx
      · exact Or.inl (List.mem_cons.mpr (Or.inl rfl))
      · rcases ih hx with h | ⟨y, hy, hfy⟩
        · exact Or.inl (List.mem_cons.mpr (Or.inr h))
        · exact Or.inr ⟨y, List.mem_cons.mpr (Or.inr hy), hfy⟩

/-- One loader step preserves non-emptiness of all stored value ids. -/
theorem loadAttrStep_preserves (dict : List (String × AttrInfo)) (cur : Option String)
    (row : AttrRow) (hst : ∀ ki ∈ dict, ∀ vv ∈ ki.2.values, vv.2 ≠ "") :
    ∀ ki ∈ (loadAttrStep (dict, cur) row).1, ∀ vv ∈ ki.2.values, vv.2 ≠ "" := by
  have hd1 : ∀ (aid aname : String), ∀ ki ∈ (if hasKey dict aname then dict
      else dict ++ [(aname, (⟨aid, aname, []⟩ : AttrInfo))]),
      ∀ vv ∈ ki.2.values, vv.2 ≠ "" := by
    intro aid aname ki hki vv hvv
    by_cases hk : hasKey dict aname
    · rw [if_pos hk] at hki
      exact hst ki hki vv hvv
    · rw [if_neg hk] at hki
      rcases List.mem_append.mp hki with h | h
      · exact hst ki h vv hvv
      · have hkieq : ki = (aname, (⟨aid, aname, []⟩ : AttrInfo)) := by simpa using h
        rw [hkieq] at hvv
        exact absurd hvv (List.not_mem_nil vv)
  have hupd : ∀ (d : List (String × AttrInfo)) (c vid vname : String),
      (∀ ki ∈ d, ∀ vv ∈ ki.2.values, vv.2 ≠ "") → vid ≠ "" →
      ∀ ki ∈ dupdate d c
        (fun info => { info with values := dinsert info.values vname vid }),
      ∀ vv ∈ ki.2.values, vv.2 ≠ "" := by
    intro d c vid vname hd hvid ki hki vv hvv
    rcases mem_dupdate d c _ ki hki with h | ⟨y, hy, hfy⟩
    · exact hd ki h vv hvv
    · rw [hfy] at hvv
      rcases mem_dinsert _ _ _ vv hvv with rfl | hvv2
      · exact hvid
      · exact hd (ki.1, y) hy vv hvv2
  cases hid : cellStr row.id with
  | none =>
    cases cur with
    | none => simpa [loadAttrStep, hid] using hst
    | some c =>
      cases hvid : row.value_id with
      | none => simpa [loadAttrStep, hid, hvid] using hst
      | some vid =>
        cases hvname : row.value_name with
        | none => simpa [loadAttrStep, hid, hvid, hvname] using hst
        | some vname =>
          by_cases hemp : vid == "" || vname == ""
          · simpa [loadAttrStep, hid, hvid, hvname, hemp] using hst
          · intro ki hki vv hvv
            have hki2 : ki ∈ dupdate dict c
                (fun info => { info with values := dinsert info.values vname vid }) := by
              simpa [loadAttrStep, hid, hvid, hvname, hemp] using hki
            refine hupd dict c vid vname hst ?_ ki hki2 vv hvv
            intro hc
            rw [hc] at hemp
            simp at hemp
  | some aid =>
    cases hname : cellStr row.name with
    | none =>
      cases cur with
      | none => simpa [loadAttrStep, hid, hname] using hst
      | some c =>
        cases hvid : row.value_id with
        | none => simpa [loadAttrStep, hid, hname, hvid] using hst
        | some vid =>
          cases hvname : row.value_name with
          | none => simpa [loadAttrStep, hid, hname, hvid, hvname] using hst
          | some vname =>
            by_cases hemp : vid == "" || vname == ""
            · simpa [loadAttrStep, hid, hname, hvid, hvname, hemp] using hst
            · intro ki hki vv hvv
              have hki2 : ki ∈ dupdate dict c
                  (fun info => { info with values := dinsert info.values vname vid }) := by
                simpa [loadAttrStep, hid, hname, hvid, hvname, hemp] using hki
              refine hupd dict c vid vname hst ?_ ki hki2 vv hvv
              intro hc
              rw [hc] at hemp
              simp at hemp
    | some aname =>
      cases hvid : row.value_id with
      | none =>
        intro ki hki vv hvv
        have hki2 : ki ∈ (if hasKey dict aname then dict
            else dict ++ [(aname, (⟨aid, aname, []⟩ : AttrInfo))]) := by
          simpa [loadAttrStep, hid, hname, hvid] using hki
        exact hd1 aid aname ki hki2 vv hvv
      | some vid =>
        cases hvname : row.value_name with
        | none =>
          intro ki hki vv hvv
          have hki2 : ki ∈ (if hasKey dict aname then dict
              else dict ++ [(aname, (⟨aid, aname, []⟩ : AttrInfo))]) := by
            simpa [loadAttrStep, hid, hname, hvid, hvname] using hki
          exact hd1 aid aname ki hki2 vv hvv
        | some vname =>
          by_cases hemp : vid == "" || vname == ""
          · intro ki hki vv hvv
            have hki2 : ki ∈ (if hasKey dict aname then dict
                else dict ++ [(aname, (⟨aid, aname, []⟩ : AttrInfo))]) := by
              simpa [loadAttrStep, hid, hname, hvid, hvname, hemp] using hki
            exact hd1 aid aname ki hki2 vv hvv
          · intro ki hki vv hvv
            have hki2 : ki ∈ dupdate (if hasKey dict aname then dict
                else dict ++ [(aname, (⟨aid, aname, []⟩ : AttrInfo))]) aname
                (fun info => { info with values := dinsert info.values vname vid }) := by
              simpa [loadAttrStep, hid, hname, hvid, hvname, hemp] using hki
            refine hupd _ aname vid vname (hd1 aid aname) ?_ ki hki2 vv hvv
            intro hc
            rw [hc] at hemp
            simp at hemp

/-- Invariant of the vocabulary loader: every stored value id is non-empty
(the loop guards on their truthiness). -/
theorem loadAttrStep_values_nonempty (rows : List AttrRow) :
    ∀ (st : List (String × AttrInfo) × Option String),
      (∀ ki ∈ st.1, ∀ vv ∈ ki.2.values, vv.2 ≠ "") →
      ∀ ki ∈ (rows.foldl loadAttrStep st).1, ∀ vv ∈ ki.2.values, vv.2 ≠ "" := by
  induction rows with
  | nil => intro st hst; exact hst
  | cons row rest ih =>
    intro st hst
    rw [List.foldl_cons]
    exact ih (loadAttrStep st row) (loadAttrStep_preserves st.1 st.2 row hst)


/-- C8: for an existing attribute, a candidate value already present in its
vocabulary under case-insensitive trimmed comparison (with the truthy id the
loader always stores) is never emitted as a new-value row, and every emitted
value has no such match; value ids loaded from the vocabulary export are
always non-empty, so the suppression applies to every loaded snapshot. -/
theorem duplicate_value_suppression :
    (∀ (values : List String) (existingValues : List (String × String))
        (attrId attrName v eid : String),
        findExistingValue (pyStrip v) existingValues = some eid → eid ≠ "" →
        pyStrip v ∉ (existingAttrRows attrId attrName
          (newValuesForAttr values existingValues)).map (fun r => r.value)) ∧
    (∀ (values : List String) (existingValues : List (String × String))
        (w : String), w ∈ newValuesForAttr values existingValues →
        findExistingValue w existingValues = none ∨
        findExistingValue w existingValues = some "") ∧
    (∀ (input : Except String (List AttrRow)) (ki : String × AttrInfo),
        ki ∈ loadExistingAttributes input → ∀ vv ∈ ki.2.values, vv.2 ≠ "") := by
  have hmem : ∀ (values : List String) (evs : List (String × String)) (w : String),
      w ∈ newValuesForAttr values evs →
      findExistingValue w evs = none ∨ findExistingValue w evs = some "" := by
    intro values evs w hw
    unfold newValuesForAttr at hw
    rw [foldl_newValueStep, List.nil_append] at hw
    obtain ⟨v, _, hv⟩ := List.mem_filterMap.mp hw
    by_cases h0 : pyStrip v == ""
    · rw [if_pos h0] at hv; exact absurd hv (by simp)
    · rw [if_neg h0] at hv
      cases hf : findExistingValue (pyStrip v) evs with
      | some eid =>
        rw [hf] at hv
        have hv2 : (if eid == "" then some (pyStrip v) else none) = some w := hv
        by_cases he : eid == ""
        · rw [if_pos he] at hv2
          have hw' : w = pyStrip v := (Option.some.inj hv2).symm
          exact Or.inr (by rw [hw', hf, show eid = "" from by simpa using he])
        · rw [if_neg he] at hv2
          exact absurd hv2 (by simp)
      | none =>
        rw [hf] at hv
        have hv2 : some (pyStrip v) = some w := hv
        have hw' : w = pyStrip v := (Option.some.inj hv2).symm
        exact Or.inl (by rw [hw', hf])
  refine ⟨?_, hmem, ?_⟩
  · intro values evs attrId attrName v eid hfind hne hmemrow
    rw [existingAttrRows_values] at hmemrow
    rcases hmem values evs (pyStrip v) hmemrow with h | h
    · rw [hfind] at h
      exact Option.noConfusion h
    · rw [hfind] at h
      exact hne (by injection h)
  · intro input ki hki vv hvv
    cases input with
    | error e => exact absurd hki (List.not_mem_nil ki)
    | ok rows =>
      have := loadAttrStep_values_nonempty rows ([], none)
        (by intro ki hki; exact absurd hki (List.not_mem_nil ki))
      exact this ki hki vv hvv

/-- Witness for C8: candidate `"3MG "` is suppressed because the vocabulary
already holds `3mg`. -/
theorem duplicate_value_suppression_witness :
    findExistingValue (pyStrip "3MG ") [("3mg", "vid_1")] = some "vid_1" ∧
    ("vid_1" : String) ≠ "" ∧
    pyStrip "3MG " ∉ (existingAttrRows "attr_nic" "Nicotine Level"
      (newValuesForAttr ["3MG "] [("3mg", "vid_1")])).map (fun r => r.value) :=
  ⟨by decide, by decide,
    duplicate_value_suppression.1 ["3MG "] [("3mg", "vid_1")] "attr_nic"
      "Nicotine Level" "3MG " "vid_1" (by decide) (by decide)⟩

/-! ### New-template emission (`template_builder._generate_new_template`,
`_get_value_external_ids`, `_map_category_to_external_id`, `_sanitize_value`) -/

/-- The grouped data of one template (`_group_products_by_template` entry):
collected prices, mapped category, and attribute → value-set dict. -/
structure TemplateData where
  prices : List ℚ
  category : String
  attributes : List (String × List String)
deriving DecidableEq

/-- Collapse runs of underscores (`re.sub(r'_+', '_', ...)`); the flag says
whether the previous kept character was an underscore. -/
def sanitizeCollapse : Bool → List Char → List Char
  | _, [] => []
  | prevU, c :: t =>
    if c == '_' then
      if prevU then sanitizeCollapse true t else '_' :: sanitizeCollapse true t
    else c :: sanitizeCollapse false t

/-- `_sanitize_value`: lowercase, non-alphanumerics to `_`, collapse and trim
underscores, `unknown` when nothing is left. -/
def sanitizeValue (v : String) : String :=
  let l := (pyLower v).toList.map
    (fun c => if c.isAlpha || c.isDigit || c == '_' then c else '_')
  let l2 := sanitizeCollapse false l
  let l3 := ((l2.dropWhile (fun c => c == '_')).reverse.dropWhile
    (fun c => c == '_')).reverse
  if l3.isEmpty then "unknown" else String.mk l3

/-- Python `",".join(...)`. -/
def joinComma : List String → String
  | [] => ""
  | [x] => x
  | x :: y :: t => x ++ "," ++ joinComma (y :: t)

/-- `_get_value_external_ids`: sorted values mapped to their external ids,
falling back to a sanitized `value_*` id (a falsy mapped id also falls back). -/
def getValueExternalIds (values : List String) (attributeName : String)
    (vm : List (String × List (String × String))) : String :=
  let avm := (alookup vm attributeName).getD []
  joinComma ((sortStrs values).map (fun v =>
    match alookup avm (pyStrip (pyLower v)) with
    | some eid => if eid == "" then "value_" ++ sanitizeValue v else eid
    | none => "value_" ++ sanitizeValue v))

/-- `_map_category_to_external_id`: direct lookup (falsy result rejected),
else the `Saleable` entry, else the hard-coded default. -/
def mapCategoryToExternalId (categoryName : String)
    (cm : List (String × String)) : String :=
  match alookup cm categoryName with
  | some eid =>
    if eid == "" then (alookup cm "Saleable").getD "product.product_category_1"
    else eid
  | none => (alookup cm "Saleable").getD "product.product_category_1"

/-- One row of `new_templates.csv` (`list_price` is `none` on continuation
rows; the CSV serializes the average to two decimals). -/
structure NewTemplateRow where
  id : String
  name : String
  categ_id : String
  ttype : String
  sale_ok : String
  list_price : Option ℚ
  attr_id : String
  value_ids : String
deriving DecidableEq

/-- The row-emission loop of `_generate_new_template`, threading the
`first_row` flag: axes missing from the template data or without a truthy
attribute id are skipped without consuming the flag. -/
def genTemplateRows (extId tname categExtId : String) (avgPrice : ℚ)
    (attrs : List (String × List String)) (am : List (String × String))
    (vm : List (String × List (String × String))) :
    Bool → List String → List NewTemplateRow
  | _, [] => []
  | first, a :: rest =>
    if hasKey attrs a then
      match alookup am a with
      | some attrExtId =>
        if attrExtId == "" then
          genTemplateRows extId tname categExtId avgPrice attrs am vm first rest
        else
          let vids := getValueExternalIds ((alookup attrs a).getD []) a vm
          if first then
            ⟨extId, tname, categExtId, "consu", "True", some avgPrice, attrExtId, vids⟩
              :: genTemplateRows extId tname categExtId avgPrice attrs am vm false rest
          else
            ⟨"", "", "", "", "", none, attrExtId, vids⟩
              :: genTemplateRows extId tname categExtId avgPrice attrs am vm false rest
      | none => genTemplateRows extId tname categExtId avgPrice attrs am vm first rest
    else genTemplateRows extId tname categExtId avgPrice attrs am vm first rest

/-- The axis ordering actually used by `_generate_new_template`. -/
def codeAxisPriority : List String := ["flavor", "nicotine_mg", "volume_ml"]

/-- `_generate_new_template`. -/
def generateNewTemplate (templateName templateExtId : String) (td : TemplateData)
    (am : List (String × String)) (vm : List (String × List (String × String)))
    (cm : List (String × String)) : List NewTemplateRow :=
  let avgPrice : ℚ :=
    if td.prices.isEmpty then 0 else td.prices.sum / (td.prices.length : ℚ)
  let categExtId := mapCategoryToExternalId td.category cm
  let others := (td.attributes.map Prod.fst).filter
    (fun a => !codeAxisPriority.contains a)
  genTemplateRows templateExtId templateName categExtId avgPrice td.attributes am vm
    true (codeAxisPriority ++ others)

/-- Whether an axis name produces a row, and with which attribute id. -/
def emittedAxisId (attrs : List (String × List String)) (am : List (String × String))
    (a : String) : Option String :=
  if hasKey attrs a then
    match alookup am a with
    | some e => if e == "" then none else some e
    | none => none
  else none

/-- Modelled from the spec (claim C4): the claimed fixed priority
`flavor > nicotine_level > resistance > coil_type > color > model`,
translated to the repository's internal axis keys. -/
def specAxisPriority : List String :=
  ["flavor", "nicotine_mg", "resistance_ohm", "coil_type", "color", "model"]

/-- Modelled from the spec (claim C4): attribute ids in the claimed order —
priority axes first, remaining axes in stable order. -/
def specNewTemplateAxisOrder (td : TemplateData) (am : List (String × String)) :
    List String :=
  (specAxisPriority ++ (td.attributes.map Prod.fst).filter
    (fun a => !specAxisPriority.contains a)).filterMap (emittedAxisId td.attributes am)

/-! ### C4: new-template row emission -/

/-- The emitted attribute ids are the emittable axes in loop order,
independent of the `first_row` flag. -/
theorem genTemplateRows_map (extId tname categ : String) (avg : ℚ)
    (attrs : List (String × List String)) (am : List (String × String))
    (vm : List (String × List (String × String))) :
    ∀ (l : List String) (first : Bool),
      (genTemplateRows extId tname categ avg attrs am vm first l).map
          (fun r => r.attr_id)
        = l.filterMap (emittedAxisId attrs am) := by
  intro l
  induction l with
  | nil => intro first; rfl
  | cons a rest ih =>
    intro first
    rw [List.filterMap_cons]
    by_cases hk : hasKey attrs a
    · cases hm : alookup am a with
      | some e =>
        by_cases he : e == ""
        · simp only [genTemplateRows, emittedAxisId, hk, hm, he, if_true, ih]
        · have he' : (e == "") = false := by simpa using he
          cases first with
          | true => simp [genTemplateRows, emittedAxisId, hk, hm, he', ih]
          | false => simp [genTemplateRows, emittedAxisId, hk, hm, he', ih]
      | none =>
        simp only [genTemplateRows, emittedAxisId, hk, hm, if_true, ih]
    · have hk' : hasKey attrs a = false := by simpa using hk
      simp only [genTemplateRows, emittedAxisId, hk', Bool.false_eq_true, if_false, ih]

/-- Rows emitted with the flag already consumed carry only the attribute
pair. -/
theorem genTemplateRows_false_shape (extId tname categ : String) (avg : ℚ)
    (attrs : List (String × List String)) (am : List (String × String))
    (vm : List (String × List (String × String))) :
    ∀ (l : List String) (r : NewTemplateRow),
      r ∈ genTemplateRows extId tname categ avg attrs am vm false l →
      r.id = "" ∧ r.name = "" ∧ r.categ_id = "" ∧ r.ttype = "" ∧ r.sale_ok = "" ∧
      r.list_price = none := by
  intro l
  induction l with
  | nil => intro r hr; exact absurd hr (List.not_mem_nil r)
  | cons a rest ih =>
    intro r hr
    by_cases hk : hasKey attrs a
    · cases hm : alookup am a with
      | some e =>
        by_cases he : e == ""
        · exact ih r (by simpa [genTemplateRows, hk, hm, he] using hr)
        · have he' : (e == "") = false := by simpa using he
          have hr' : r = (⟨"", "", "", "", "", none, e,
              getValueExternalIds ((alookup attrs a).getD []) a vm⟩ : NewTemplateRow)
              ∨ r ∈ genTemplateRows extId tname categ avg attrs am vm false rest := by
            simpa [genTemplateRows, hk, hm, he'] using hr
          rcases hr' with rfl | hmem
          · exact ⟨rfl, rfl, rfl, rfl, rfl, rfl⟩
          · exact ih r hmem
      | none => exact ih r (by simpa [genTemplateRows, hk, hm] using hr)
    · have hk' : hasKey attrs a = false := by simpa using hk
      exact ih r (by simpa [genTemplateRows, hk'] using hr)

/-- When the flag is fresh, the first emitted row (if any) carries the full
template metadata. -/
theorem genTemplateRows_true_head (extId tname categ : String) (avg : ℚ)
    (attrs : List (String × List String)) (am : List (String × String))
    (vm : List (String × List (String × String))) :
    ∀ (l : List String) (r0 : NewTemplateRow),
      (genTemplateRows extId tname categ avg attrs am vm true l).head? = some r0 →
      r0.id = extId ∧ r0.name = tname ∧ r0.categ_id = categ ∧ r0.ttype = "consu" ∧
      r0.sale_ok = "True" ∧ r0.list_price = some avg := by
  intro l
  induction l with
  | nil => intro r0 hr0; exact absurd hr0 (by simp [genTemplateRows])
  | cons a rest ih =>
    intro r0 hr0
    by_cases hk : hasKey attrs a
    · cases hm : alookup am a with
      | some e =>
        by_cases he : e == ""
        · exact ih r0 (by simpa [genTemplateRows, hk, hm, he] using hr0)
        · have he' : (e == "") = false := by simpa using he
          have hr0' : (⟨extId, tname, categ, "consu", "True", some avg, e,
              getValueExternalIds ((alookup attrs a).getD []) a vm⟩ : NewTemplateRow)
              = r0 := by
            simpa [genTemplateRows, hk, hm, he'] using hr0
          rw [← hr0']
          exact ⟨rfl, rfl, rfl, rfl, rfl, rfl⟩
      | none => exact ih r0 (by simpa [genTemplateRows, hk, hm] using hr0)
    · have hk' : hasKey attrs a = false := by simpa using hk
      exact ih r0 (by simpa [genTemplateRows, hk'] using hr0)

/-- When the flag is fresh, every row after the first carries only the
attribute pair. -/
theorem genTemplateRows_true_tail (extId tname categ : String) (avg : ℚ)
    (attrs : List (String × List String)) (am : List (String × String))
    (vm : List (String × List (String × String))) :
    ∀ (l : List String) (r : NewTemplateRow),
      r ∈ (genTemplateRows extId tname categ avg attrs am vm true l).tail →
      r.id = "" ∧ r.name = "" ∧ r.categ_id = "" ∧ r.ttype = "" ∧ r.sale_ok = "" ∧
      r.list_price = none := by
  intro l
  induction l with
  | nil => intro r hr; exact absurd hr (by simp [genTemplateRows])
  | cons a rest ih =>
    intro r hr
    by_cases hk : hasKey attrs a
    · cases hm : alookup am a with
      | some e =>
        by_cases he : e == ""
        · exact ih r (by simpa [genTemplateRows, hk, hm, he] using hr)
        · have he' : (e == "") = false := by simpa using he
          have hr' : r ∈ genTemplateRows extId tname categ avg attrs am vm false rest := by
            simpa [genTemplateRows, hk, hm, he'] using hr
          exact genTemplateRows_false_shape extId tname categ avg attrs am vm rest r hr'
      | none => exact ih r (by simpa [genTemplateRows, hk, hm] using hr)
    · have hk' : hasKey attrs a = false := by simpa using hk
      exact ih r (by simpa [genTemplateRows, hk'] using hr)

/-- C4 (amended): a new template's rows cover, in order, the axes of the
code's priority list `flavor > nicotine_mg > volume_ml` and then the
remaining axes in stable dict order — one row per axis that is present and
resolves to a truthy attribute id; the first row carries the full template
metadata (external id, name, category reference, price averaged over the
template's products, type `consu`), and every subsequent row carries only its
attribute/value pair with the template fields empty. -/
theorem new_template_rows (tname extId : String) (td : TemplateData)
    (am : List (String × String)) (vm : List (String × List (String × String)))
    (cm : List (String × String)) :
    ((generateNewTemplate tname extId td am vm cm).map (fun r => r.attr_id)
       = (codeAxisPriority ++ (td.attributes.map Prod.fst).filter
            (fun a => !codeAxisPriority.contains a)).filterMap
           (emittedAxisId td.attributes am)) ∧
    (∀ r0, (generateNewTemplate tname extId td am vm cm).head? = some r0 →
       r0.id = extId ∧ r0.name = tname ∧
       r0.categ_id = mapCategoryToExternalId td.category cm ∧
       r0.ttype = "consu" ∧ r0.sale_ok = "True" ∧
       r0.list_price = some (if td.prices.isEmpty then 0
         else td.prices.sum / (td.prices.length : ℚ))) ∧
    (∀ r ∈ (generateNewTemplate tname extId td am vm cm).tail,
       r.id = "" ∧ r.name = "" ∧ r.categ_id = "" ∧ r.ttype = "" ∧
       r.sale_ok = "" ∧ r.list_price = none) := by
  refine ⟨?_, ?_, ?_⟩
  · exact genTemplateRows_map extId tname _ _ td.attributes am vm _ true
  · intro r0 hr0
    exact genTemplateRows_true_head extId tname _ _ td.attributes am vm _ r0 hr0
  · intro r hr
    exact genTemplateRows_true_tail extId tname _ _ td.attributes am vm _ r hr

/-- C4 data: a template whose axes are a remaining axis (`volume_ml`) and a
spec-priority axis (`resistance_ohm`). -/
def c4Data : TemplateData :=
  { prices := [], category := "Saleable",
    attributes := [("volume_ml", ["30"]), ("resistance_ohm", ["0.5"])] }

/-- C4 data: both axes have known attribute ids. -/
def c4Mappings : List (String × String) :=
  [("volume_ml", "attr_size"), ("resistance_ohm", "attr_res")]

/-- C4 counterexample: the code emits the `volume_ml` row before the
`resistance_ohm` row (its priority list is `flavor, nicotine_mg, volume_ml`),
while the claim's priority order — resistance before the remaining axes —
demands the opposite order. -/
theorem new_template_axis_order_counterexample :
    (generateNewTemplate "T" "template_t" c4Data c4Mappings [] []).map
        (fun r => r.attr_id) = ["attr_size", "attr_res"] ∧
    specNewTemplateAxisOrder c4Data c4Mappings = ["attr_res", "attr_size"] ∧
    (["attr_size", "attr_res"] : List String) ≠ ["attr_res", "attr_size"] := by decide

/-- Witness for the amended C4 on the concrete template data. -/
theorem new_template_rows_witness :
    (generateNewTemplate "T" "template_t" c4Data c4Mappings [] []).head?
        = some ⟨"template_t", "T", "product.product_category_1", "consu", "True",
            some 0, "attr_size", "value_30"⟩ ∧
    ((⟨"template_t", "T", "product.product_category_1", "consu", "True",
        some 0, "attr_size", "value_30"⟩ : NewTemplateRow).id = "template_t" ∧
      (⟨"template_t", "T", "product.product_category_1", "consu", "True",
        some 0, "attr_size", "value_30"⟩ : NewTemplateRow).name = "T" ∧
      (⟨"template_t", "T", "product.product_category_1", "consu", "True",
        some 0, "attr_size", "value_30"⟩ : NewTemplateRow).categ_id
        = mapCategoryToExternalId c4Data.category [] ∧
      (⟨"template_t", "T", "product.product_category_1", "consu", "True",
        some 0, "attr_size", "value_30"⟩ : NewTemplateRow).ttype = "consu" ∧
      (⟨"template_t", "T", "product.product_category_1", "consu", "True",
        some 0, "attr_size", "value_30"⟩ : NewTemplateRow).sale_ok = "True" ∧
      (⟨"template_t", "T", "product.product_category_1", "consu", "True",
        some 0, "attr_size", "value_30"⟩ : NewTemplateRow).list_price
        = some (if c4Data.prices.isEmpty then 0
            else c4Data.prices.sum / (c4Data.prices.length : ℚ))) :=
  ⟨by decide,
    (new_template_rows "T" "template_t" c4Data c4Mappings [] []).2.1
      ⟨"template_t", "T", "product.product_category_1", "consu", "True",
        some 0, "attr_size", "value_30"⟩ (by decide)⟩

end ProductData
